import Mathlib

/-!
Verification of the caching and resolution engine of the sunspot lookup
service (`backend/core/views.py`).

The Python module is shallowly embedded: every view helper becomes a pure
Lean function.  Effects are made explicit:

* the Redis store is a list of key/value pairs threaded through the
  functions (enumeration order of `KEYS` is the list order);
* every outbound interaction (geocoding calls, sun-times API calls, Redis
  commands, the span events the code emits) is recorded in an event trace;
* external collaborators (the Nominatim geocoder, the sunrise-sunset API,
  `json.loads`/`json.dumps`, `dateutil.parser.parse`, Python's
  `float`/`str` pair) are fields of an `Env` record, so a theorem about
  the engine quantifies over every possible behaviour of its
  collaborators, and a concrete witness instantiates them.
-/

namespace Sunspot

/-- JSON values as Python's `json` module produces them.  Numbers are
modelled by integers: the engine treats payloads opaquely, inspecting
only decode success and Python truthiness, so the numeric carrier is
irrelevant to every statement proved below. -/
inductive Json where
  | null
  | bool (b : Bool)
  | num (n : Int)
  | str (s : String)
  | arr (elems : List Json)
  | obj (fields : List (String × Json))

/-- Python truthiness of a decoded JSON value (`if sun_data:`). -/
def jsonTruthy : Json → Bool
  | .null => false
  | .bool b => b
  | .num n => n != 0
  | .str s => s != ""
  | .arr l => !l.isEmpty
  | .obj l => !l.isEmpty

/-- Python truthiness of an optional JSON value. -/
def optJsonTruthy : Option Json → Bool
  | none => false
  | some j => jsonTruthy j

/-- Python truthiness of an optional string (`None` and `""` are falsy). -/
def optStrTruthy : Option String → Bool
  | none => false
  | some s => s != ""

/-- Python `a or b` on optional strings: `a` if truthy, else `b`. -/
def pyOrS (a b : Option String) : Option String :=
  if optStrTruthy a then a else b

/-- A calendar date as held by `datetime.date`. -/
structure PyDate where
  y : Nat
  m : Nat
  d : Nat
deriving DecidableEq

/-- Gregorian leap-year rule used by `datetime`. -/
def isLeap (y : Nat) : Bool :=
  y % 4 == 0 && (y % 100 != 0 || y % 400 == 0)

/-- Length of a month, as `datetime` computes it. -/
def daysInMonth (y m : Nat) : Nat :=
  if m = 2 then (if isLeap y then 29 else 28)
  else if m = 4 ∨ m = 6 ∨ m = 9 ∨ m = 11 then 30
  else 31

/-- `date + timedelta(days=1)` on valid dates. -/
def nextDay (dt : PyDate) : PyDate :=
  if dt.d < daysInMonth dt.y dt.m then ⟨dt.y, dt.m, dt.d + 1⟩
  else if dt.m < 12 then ⟨dt.y, dt.m + 1, 1⟩
  else ⟨dt.y + 1, 1, 1⟩

/-- `date - timedelta(days=1)` on valid dates. -/
def prevDay (dt : PyDate) : PyDate :=
  if 1 < dt.d then ⟨dt.y, dt.m, dt.d - 1⟩
  else if 1 < dt.m then ⟨dt.y, dt.m - 1, daysInMonth dt.y (dt.m - 1)⟩
  else ⟨dt.y - 1, 12, 31⟩

/-- A date the `datetime` module can represent, restricted to four-digit
years so that `%Y` renders exactly four digits. -/
def ValidDate (dt : PyDate) : Prop :=
  1000 ≤ dt.y ∧ dt.y ≤ 9999 ∧ 1 ≤ dt.m ∧ dt.m ≤ 12 ∧ 1 ≤ dt.d ∧ dt.d ≤ daysInMonth dt.y dt.m

instance : DecidablePred ValidDate := fun _ => by
  unfold ValidDate; infer_instance

/-- The decimal digit character for `n % 10`. -/
def digitChar (n : Nat) : Char := Char.ofNat (48 + n % 10)

/-- Zero-padded two-digit rendering (`%m`, `%d`). -/
def pad2Chars (n : Nat) : List Char := [digitChar (n / 10), digitChar n]

/-- Zero-padded four-digit rendering (`%Y` for four-digit years). -/
def pad4Chars (n : Nat) : List Char :=
  [digitChar (n / 1000), digitChar (n / 100), digitChar (n / 10), digitChar n]

/-- `d.strftime('%Y-%m-%d')` for dates with four-digit years. -/
def strftimeYMD (dt : PyDate) : String :=
  String.mk (pad4Chars dt.y ++ '-' :: (pad2Chars dt.m ++ '-' :: pad2Chars dt.d))

/-- Recognizer for strings of the shape `YYYY-MM-DD` (ten characters,
digits in the date positions, dashes in between). -/
def isYMD (s : String) : Bool :=
  match s.data with
  | [y1, y2, y3, y4, h1, m1, m2, h2, d1, d2] =>
      y1.isDigit && y2.isDigit && y3.isDigit && y4.isDigit &&
      h1 == '-' && m1.isDigit && m2.isDigit && h2 == '-' &&
      d1.isDigit && d2.isDigit
  | _ => false

/-- Python's `str.split(sep)` for a single-character separator, on
character lists.  `"".split(":") = [""]`, `":".split(":") = ["", ""]`. -/
def pySplitChars (sep : Char) : List Char → List (List Char)
  | [] => [[]]
  | c :: cs =>
      let r := pySplitChars sep cs
      if c = sep then [] :: r
      else
        match r with
        | [] => [[c]]
        | h :: t => (c :: h) :: t

/-- Python's `s.split(sep)` for a single-character separator. -/
def pySplit (sep : Char) (s : String) : List String :=
  (pySplitChars sep s.data).map String.mk

/-- Redis glob matching restricted to the `*` wildcard (the only
metacharacter occurring in the patterns the engine builds), with explicit
fuel so that the definition reduces by kernel computation.  Fuel at least
`p.length + s.length + 1` is always sufficient. -/
def globMatchFuel : Nat → List Char → List Char → Bool
  | 0, _, _ => false
  | _ + 1, [], s => s.isEmpty
  | f + 1, p :: ps, [] => if p = '*' then globMatchFuel f ps [] else false
  | f + 1, p :: ps, c :: cs =>
      if p = '*' then globMatchFuel f ps (c :: cs) || globMatchFuel f (p :: ps) cs
      else p == c && globMatchFuel f ps cs

/-- Whether Redis key `s` matches glob pattern `pat` (`KEYS pat`). -/
def globMatch (pat s : String) : Bool :=
  globMatchFuel (pat.length + s.length + 1) pat.data s.data

/-- Python's `str.title()` for ASCII text: the first letter of every
alphabetic run is uppercased, the rest lowercased. -/
def pyTitleChars : Bool → List Char → List Char
  | _, [] => []
  | prevAlpha, c :: cs =>
      if c.isAlpha then
        (if prevAlpha then c.toLower else c.toUpper) :: pyTitleChars true cs
      else
        c :: pyTitleChars false cs

/-- Python's `str.title()`. -/
def pyTitle (s : String) : String := String.mk (pyTitleChars false s.data)

/-- Python's `str.lower()` for ASCII text (defined over the character
list so that it evaluates by kernel computation). -/
def pyLower (s : String) : String := String.mk (s.data.map Char.toLower)

/-- Whitespace stripped by Python's `str.strip()`. -/
def isPySpace (c : Char) : Bool :=
  c == ' ' || c == '\t' || c == '\n' || c == '\r' || c == '\x0b' || c == '\x0c'

/-- Python's `str.strip()`. -/
def pyStrip (s : String) : String :=
  String.mk (((s.data.dropWhile isPySpace).reverse.dropWhile isPySpace).reverse)

/-- The Redis store contents: key/value pairs in enumeration order
(`KEYS` returns matching keys in this order; the code relies on no
particular order, per the spec). -/
abbrev Store := List (String × String)

/-- `redis_client.get(key)` against the modelled store. -/
def redisGet (store : Store) (key : String) : Option String :=
  match store.find? (fun kv => kv.1 == key) with
  | some kv => some kv.2
  | none => none

/-- `redis_client.keys(pat)` against the modelled store. -/
def redisKeys (store : Store) (pat : String) : List String :=
  (store.filter (fun kv => globMatch pat kv.1)).map (fun kv => kv.1)

/-- `redis_client.set(key, val, ex=ttl)`: overwrite or append.  The
expiry itself is not part of the stored state; the TTL passed to the
command is recorded in the event trace. -/
def redisSet (store : Store) (key val : String) : Store :=
  if store.any (fun kv => kv.1 == key) then
    store.map (fun kv => if kv.1 == key then (key, val) else kv)
  else store ++ [(key, val)]

/-- One entry of the Nominatim search response (`data[0]` with its
optional `lat`/`lon` fields). -/
structure GeoItem where
  lat : Option String
  lon : Option String

/-- A sunrise-sunset API response body: its `status` field and its
optional `results` payload (`data["results"]` raises when absent). -/
structure SunResp where
  status : Option String
  results : Option Json

/-- The environment of the engine: the reachability and contents of its
collaborators.  `F` is the carrier of Python floating-point values;
`pyFloat`/`pyStr` model Python's `float(s)` (with `none` for
`ValueError`) and `str(f)`.  `parseDate` models `dateutil.parser.parse`
(`none` for `ValueError`).  `searchResp`/`reverseResp`/`sunResp` give
the outcome of each outbound HTTP call (`none` models a raised
exception, a non-2xx status or an unparseable body).  `jsonLoads`
returns `none` for `json.JSONDecodeError`. -/
structure Env (F : Type) where
  redisAvailable : Bool
  keyPre : String
  cacheTTL : Nat
  today : PyDate
  parseDate : String → Option PyDate
  searchResp : String → Option (List GeoItem)
  reverseResp : String → String → Option (List (String × String))
  sunResp : String → String → String → Option SunResp
  jsonLoads : String → Option Json
  jsonDumps : Json → String
  pyFloat : String → Option F
  pyStr : F → String

/-- Observable events of a request: outbound calls, Redis commands and
the distinguished span events the code emits. -/
inductive Ev where
  | geoSearch (city : String)
  | geoReverse (lat lon : String)
  | sunApi (lat lon dateStr : String)
  | cacheKeys (pat : String)
  | cacheGet (key : String)
  | cacheSet (key val : String) (ttl : Nat)
  | dataRetrieval
  | viewCityCacheHit
  | viewCoordCacheHit
deriving DecidableEq

/-- Events that contact the geocoding provider. -/
def isGeoEv : Ev → Bool
  | .geoSearch _ => true
  | .geoReverse _ _ => true
  | _ => false

/-- Events that contact the sun-times provider. -/
def isSunEv : Ev → Bool
  | .sunApi _ _ _ => true
  | _ => false

/-- Events that touch the cache store. -/
def isCacheEv : Ev → Bool
  | .cacheKeys _ => true
  | .cacheGet _ => true
  | .cacheSet _ _ _ => true
  | _ => false

/-- The two handler-level shortcut-hit span events. -/
def isViewHitEv : Ev → Bool
  | .viewCityCacheHit => true
  | .viewCoordCacheHit => true
  | _ => false

/-- `resolve_date_param`: resolve the raw date parameter to `YYYY-MM-DD`
(`None` and `""` are falsy, keywords are compared case-insensitively,
anything else goes through `dateutil.parser.parse`, whose `ValueError`
yields `None`). -/
def resolve_date_param {F : Type} (env : Env F) (dateParam : Option String) : Option String :=
  match dateParam with
  | none => some (strftimeYMD env.today)
  | some s =>
      if s = "" ∨ pyLower s = "today" then some (strftimeYMD env.today)
      else if pyLower s = "yesterday" then some (strftimeYMD (prevDay env.today))
      else if pyLower s = "tomorrow" then some (strftimeYMD (nextDay env.today))
      else
        match env.parseDate s with
        | some d => some (strftimeYMD d)
        | none => none

/-- Result of `get_coordinates_from_city`. -/
structure GeoOut where
  lat : Option String
  lon : Option String
  trace : List Ev

/-- `get_coordinates_from_city`: Nominatim forward search; the first
result's coordinates when both are present and truthy, otherwise the
`(None, None)` sentinel.  Never raises. -/
def get_coordinates_from_city {F : Type} (env : Env F) (city : String) : GeoOut :=
  match env.searchResp city with
  | none => { lat := none, lon := none, trace := [Ev.geoSearch city] }
  | some data =>
      match data.head? with
      | none => { lat := none, lon := none, trace := [Ev.geoSearch city] }
      | some item =>
          if optStrTruthy item.lat && optStrTruthy item.lon then
            { lat := item.lat, lon := item.lon, trace := [Ev.geoSearch city] }
          else { lat := none, lon := none, trace := [Ev.geoSearch city] }

/-- Result of `get_city_from_coordinates`. -/
structure RevOut where
  city : String
  trace : List Ev

/-- `address.get(k)` on the reverse-geocoding address dictionary. -/
def addrGet (addr : List (String × String)) (k : String) : Option String :=
  match addr.find? (fun kv => kv.1 == k) with
  | some kv => some kv.2
  | none => none

/-- `get_city_from_coordinates`: Nominatim reverse geocoding with the
`city or town or village or hamlet or "Unknown"` preference chain;
always returns some string, never raises. -/
def get_city_from_coordinates {F : Type} (env : Env F) (lat lon : String) : RevOut :=
  match env.reverseResp lat lon with
  | none => { city := "Unknown", trace := [Ev.geoReverse lat lon] }
  | some addr =>
      let r := pyOrS (addrGet addr "city")
        (pyOrS (addrGet addr "town") (pyOrS (addrGet addr "village") (addrGet addr "hamlet")))
      { city := if optStrTruthy r then r.getD "" else "Unknown",
        trace := [Ev.geoReverse lat lon] }

/-- The city-pattern search key: `{prefix}:{city.lower()}:*:{date}`. -/
def cityPat {F : Type} (env : Env F) (cityName dateStr : String) : String :=
  env.keyPre ++ ":" ++ pyLower cityName ++ ":*:" ++ dateStr

/-- The coordinate-pattern search key: `{prefix}:*:{lat}:{lon}:{date}`. -/
def coordPat {F : Type} (env : Env F) (lat lon dateStr : String) : String :=
  env.keyPre ++ ":*:" ++ lat ++ ":" ++ lon ++ ":" ++ dateStr

/-- The canonical cache key `{prefix}:{city.lower()}:{lat}:{lon}:{date}`. -/
def canonicalKey {F : Type} (env : Env F) (cityName lat lon dateStr : String) : String :=
  env.keyPre ++ ":" ++ pyLower cityName ++ ":" ++ lat ++ ":" ++ lon ++ ":" ++ dateStr

/-- Result of `get_cached_sunspot_by_city`. -/
structure CityLookupOut where
  data : Option Json
  lat : Option String
  lon : Option String
  trace : List Ev

/-- `get_cached_sunspot_by_city`: probe the store for any key matching
the city pattern; on a match read `keys[0]`, split the key on `:` and
take components 3 and 4 as coordinates (an out-of-range index raises
`IndexError`, caught together with decode failures and turned into a
miss). -/
def get_cached_sunspot_by_city {F : Type} (env : Env F) (store : Store)
    (cityName dateStr : String) : CityLookupOut :=
  if !env.redisAvailable then { data := none, lat := none, lon := none, trace := [] }
  else
    let pat := cityPat env cityName dateStr
    match (redisKeys store pat).head? with
    | none => { data := none, lat := none, lon := none, trace := [Ev.cacheKeys pat] }
    | some k0 =>
        let ev := [Ev.cacheKeys pat, Ev.cacheGet k0]
        match redisGet store k0 with
        | none => { data := none, lat := none, lon := none, trace := ev }
        | some cd =>
            if cd = "" then { data := none, lat := none, lon := none, trace := ev }
            else
              let parts := pySplit ':' k0
              if 5 ≤ parts.length then
                match env.jsonLoads cd with
                | some j =>
                    { data := some j, lat := some (parts.getD 3 ""),
                      lon := some (parts.getD 4 ""), trace := ev }
                | none => { data := none, lat := none, lon := none, trace := ev }
              else { data := none, lat := none, lon := none, trace := ev }

/-- Result of `get_cached_sunspot_by_coords`. -/
structure CoordLookupOut where
  data : Option Json
  city : Option String
  trace : List Ev

/-- `get_cached_sunspot_by_coords`: probe the store for any key matching
the coordinate pattern; on a match read `keys[0]` and take key component
2 as the city label. -/
def get_cached_sunspot_by_coords {F : Type} (env : Env F) (store : Store)
    (lat lon dateStr : String) : CoordLookupOut :=
  if !env.redisAvailable then { data := none, city := none, trace := [] }
  else
    let pat := coordPat env lat lon dateStr
    match (redisKeys store pat).head? with
    | none => { data := none, city := none, trace := [Ev.cacheKeys pat] }
    | some k0 =>
        let ev := [Ev.cacheKeys pat, Ev.cacheGet k0]
        match redisGet store k0 with
        | none => { data := none, city := none, trace := ev }
        | some cd =>
            if cd = "" then { data := none, city := none, trace := ev }
            else
              let parts := pySplit ':' k0
              if 3 ≤ parts.length then
                match env.jsonLoads cd with
                | some j => { data := some j, city := some (parts.getD 2 ""), trace := ev }
                | none => { data := none, city := none, trace := ev }
              else { data := none, city := none, trace := ev }

/-- The city used to build the canonical key inside `get_sunspot`: the
provided name when truthy, otherwise the reverse-geocoded one. -/
def effectiveCity {F : Type} (env : Env F) (lat lon : String) (cityName0 : Option String) : RevOut :=
  if optStrTruthy cityName0 then { city := cityName0.getD "", trace := [] }
  else get_city_from_coordinates env lat lon

/-- Result of the `external.api_call` block of `get_sunspot`. -/
structure ApiOut where
  data : Option Json
  store : Store
  trace : List Ev

/-- The `external.api_call` block of `get_sunspot`: call the sun-times
provider; on `status == "OK"` take `data["results"]` (a missing field
raises and is swallowed by the outer handler); cache a truthy payload
when the store is reachable, with the TTL read from `settings.CACHE_TTL`. -/
def sunApiFetch {F : Type} (env : Env F) (store : Store)
    (cacheKey lat lon resolved : String) (ttl : Nat) : ApiOut :=
  match env.sunResp lat lon resolved with
  | none => { data := none, store := store, trace := [Ev.sunApi lat lon resolved] }
  | some resp =>
      if resp.status == some "OK" then
        match resp.results with
        | none => { data := none, store := store, trace := [Ev.sunApi lat lon resolved] }
        | some r =>
            if jsonTruthy r && env.redisAvailable then
              let v := env.jsonDumps r
              { data := some r, store := redisSet store cacheKey v,
                trace := [Ev.sunApi lat lon resolved, Ev.cacheSet cacheKey v ttl] }
            else { data := some r, store := store, trace := [Ev.sunApi lat lon resolved] }
      else { data := none, store := store, trace := [Ev.sunApi lat lon resolved] }

/-- Result of `get_sunspot`. -/
structure SunFetchOut where
  data : Option Json
  dateStr : Option String
  city : Option String
  store : Store
  trace : List Ev

/-- `get_sunspot`: resolve the date (failing with the `(None, None,
None)` triple), resolve the city if not provided, build the canonical
key, probe it exactly when the store is reachable (returning immediately
on a decodable hit — the local `source = "cache"` assignment there is
not part of the return value), and otherwise fetch from the sun-times
provider and write back. -/
def get_sunspot {F : Type} (env : Env F) (store : Store) (lat lon : String)
    (dateParam : Option String) (cityName0 : Option String) : SunFetchOut :=
  match resolve_date_param env dateParam with
  | none => { data := none, dateStr := none, city := none, store := store, trace := [Ev.dataRetrieval] }
  | some resolved =>
      let ttl := env.cacheTTL
      let rc := effectiveCity env lat lon cityName0
      let ev0 := Ev.dataRetrieval :: rc.trace
      let cacheKey := canonicalKey env rc.city lat lon resolved
      if env.redisAvailable then
        let ev1 := ev0 ++ [Ev.cacheGet cacheKey]
        match redisGet store cacheKey with
        | some cd =>
            if cd ≠ "" then
              match env.jsonLoads cd with
              | some j =>
                  { data := some j, dateStr := some resolved, city := some rc.city,
                    store := store, trace := ev1 }
              | none =>
                  let f := sunApiFetch env store cacheKey lat lon resolved ttl
                  { data := f.data, dateStr := some resolved, city := some rc.city,
                    store := f.store, trace := ev1 ++ f.trace }
            else
              let f := sunApiFetch env store cacheKey lat lon resolved ttl
              { data := f.data, dateStr := some resolved, city := some rc.city,
                store := f.store, trace := ev1 ++ f.trace }
        | none =>
            let f := sunApiFetch env store cacheKey lat lon resolved ttl
            { data := f.data, dateStr := some resolved, city := some rc.city,
              store := f.store, trace := ev1 ++ f.trace }
      else
        let f := sunApiFetch env store cacheKey lat lon resolved ttl
        { data := f.data, dateStr := some resolved, city := some rc.city,
          store := f.store, trace := ev0 ++ f.trace }

/-- An incoming request's query parameters (`request.GET.get(...)`). -/
structure Request where
  city : Option String
  latp : Option String
  lonp : Option String
  dateParam : Option String

/-- A JSON response of the view: a 200 payload or an error status with
its message. -/
inductive Resp where
  | ok (city : String) (latitude longitude dateRequested : Option String)
       (sunData : Json) (source : String)
  | err (status : Nat) (msg : String)

/-- The `source` field of a successful response. -/
def respSource : Resp → Option String
  | .ok _ _ _ _ _ s => some s
  | .err _ _ => none

/-- The `city` field of the final response:
`city_name.title() if city_name else f"Location {lat}, {lon}"`. -/
def cityField (cn : Option String) (lat lon : String) : String :=
  if optStrTruthy cn then pyTitle (cn.getD "") else "Location " ++ lat ++ ", " ++ lon

/-- Result of `sunspot_view`. -/
structure ViewOut where
  resp : Resp
  store : Store
  trace : List Ev

/-- `sunspot_view`: the request handler.  Case 1 (city): resolve the
date, try the city-pattern shortcut, else geocode and call
`get_sunspot`.  Case 2 (coordinates): normalize via `str(float(...))`
(a `ValueError` yields the 400 "Invalid lat/lon format" response),
resolve the date, try the coordinate-pattern shortcut, else call
`get_sunspot`.  The handler-local `source` starts as `"api"` and is set
to `"cache"` only in the two shortcut branches. -/
def sunspot_view {F : Type} (env : Env F) (store : Store) (req : Request) : ViewOut :=
  if optStrTruthy req.city then
    let cityName := pyStrip (req.city.getD "")
    match resolve_date_param env req.dateParam with
    | none => { resp := .err 400 "Invalid date parameter", store := store, trace := [] }
    | some resolved =>
        let cl := get_cached_sunspot_by_city env store (pyLower cityName) resolved
        if optJsonTruthy cl.data && optStrTruthy cl.lat && optStrTruthy cl.lon then
          { resp := .ok (pyTitle cityName) cl.lat cl.lon (some resolved) (cl.data.getD .null) "cache",
            store := store, trace := cl.trace ++ [Ev.viewCityCacheHit] }
        else
          let geo := get_coordinates_from_city env cityName
          if !optStrTruthy geo.lat || !optStrTruthy geo.lon then
            { resp := .err 404 ("Could not find coordinates for city: " ++ cityName),
              store := store, trace := cl.trace ++ geo.trace }
          else
            let lat := geo.lat.getD ""
            let lon := geo.lon.getD ""
            let sf := get_sunspot env store lat lon req.dateParam (some cityName)
            let cityName2 := if optJsonTruthy sf.data then sf.city else some cityName
            if optJsonTruthy sf.data then
              { resp := .ok (cityField cityName2 lat lon) (some lat) (some lon) sf.dateStr
                  (sf.data.getD .null) "api",
                store := sf.store, trace := cl.trace ++ geo.trace ++ sf.trace }
            else
              { resp := .err 503 "Could not retrieve sunspot data",
                store := sf.store, trace := cl.trace ++ geo.trace ++ sf.trace }
  else if optStrTruthy req.latp && optStrTruthy req.lonp then
    match env.pyFloat (req.latp.getD "") with
    | none => { resp := .err 400 "Invalid lat/lon format", store := store, trace := [] }
    | some fla =>
        match env.pyFloat (req.lonp.getD "") with
        | none => { resp := .err 400 "Invalid lat/lon format", store := store, trace := [] }
        | some flo =>
            let lat := env.pyStr fla
            let lon := env.pyStr flo
            match resolve_date_param env req.dateParam with
            | none => { resp := .err 400 "Invalid date parameter", store := store, trace := [] }
            | some resolved =>
                let cc := get_cached_sunspot_by_coords env store lat lon resolved
                if optJsonTruthy cc.data && optStrTruthy cc.city then
                  { resp := .ok (pyTitle (cc.city.getD "")) (some lat) (some lon) (some resolved)
                      (cc.data.getD .null) "cache",
                    store := store, trace := cc.trace ++ [Ev.viewCoordCacheHit] }
                else
                  let sf := get_sunspot env store lat lon req.dateParam none
                  if optJsonTruthy sf.data then
                    { resp := .ok (cityField sf.city lat lon) (some lat) (some lon) sf.dateStr
                        (sf.data.getD .null) "api",
                      store := sf.store, trace := cc.trace ++ sf.trace }
                  else
                    { resp := .err 503 "Could not retrieve sunspot data",
                      store := sf.store, trace := cc.trace ++ sf.trace }
  else { resp := .err 400 "Missing city or lat/lon", store := store, trace := [] }

/-- Deleting one key from the modelled store (used to state that a
corrupt entry behaves exactly as an absent one). -/
def eraseKey (store : Store) (k : String) : Store :=
  store.filter (fun kv => kv.1 != k)

/-- The `dataRetrieval` marker event. -/
def isDR : Ev → Bool
  | .dataRetrieval => true
  | _ => false

/-- The events `get_sunspot` and its callees can emit. -/
def isCoreEv (e : Ev) : Bool := isDR e || isGeoEv e || isSunEv e || isCacheEv e

/-- The TTL arguments of the cache-write commands in a trace. -/
def setTTLs (tr : List Ev) : List Nat :=
  tr.filterMap (fun e => match e with | .cacheSet _ _ t => some t | _ => none)

/-- A concrete JSON payload used by the witnesses: a truthy object. -/
def jsonA : Json := .obj [("sunrise", .str "06:00")]

/-- A concrete collaborator environment used by the witnesses.  Floats
are carried by `Nat` codes; `pyFloat`/`pyStr` agree with Python on the
handful of strings the witnesses use (`float("40") == float("40.0")`,
`str(float("1e2")) == "100.0"`, `float("nan")` parses). -/
def envW : Env Nat := {
  redisAvailable := true
  keyPre := "sunspot:data"
  cacheTTL := 3600
  today := ⟨2024, 6, 21⟩
  parseDate := fun s =>
    if s = "2024-01-01" then some ⟨2024, 1, 1⟩
    else if s = "2020-05-05" then some ⟨2020, 5, 5⟩
    else if s = "2024-06-21" then some ⟨2024, 6, 21⟩
    else none
  searchResp := fun c =>
    if c = "paris" ∨ c = "Paris" then some [⟨some "48.85", some "2.35"⟩] else none
  reverseResp := fun _ _ => some [("city", "Paris")]
  sunResp := fun _ _ _ => some ⟨some "OK", some jsonA⟩
  jsonLoads := fun s =>
    if s = "enc" then some jsonA else if s = "encEmpty" then some (.obj []) else none
  jsonDumps := fun _ => "enc"
  pyFloat := fun s =>
    if s = "40" ∨ s = "40.0" then some 400
    else if s = "1e2" then some 1000
    else if s = "2.5" then some 25
    else if s = "nan" then some 999
    else if s = "48.8566" then some 4885
    else if s = "2.3522" then some 235 else none
  pyStr := fun n =>
    if n = 400 then "40.0" else if n = 1000 then "100.0"
    else if n = 25 then "2.5" else if n = 999 then "nan"
    else if n = 4885 then "48.8566" else if n = 235 then "2.3522" else "0.0"
}

/-- The witness environment with the Redis client unavailable. -/
def envWoff : Env Nat := { envW with redisAvailable := false }

/-! ### Glob matching lemmas -/

theorem globMatchFuel_mono : ∀ (f g : Nat) (p s : List Char), f ≤ g →
    globMatchFuel f p s = true → globMatchFuel g p s = true := by
  intro f
  induction f with
  | zero => intro g p s _ h; simp [globMatchFuel] at h
  | succ f ih =>
      intro g p s hfg h
      match g with
      | 0 => omega
      | g + 1 =>
        have hfg' : f ≤ g := by omega
        match p with
        | [] => simpa [globMatchFuel] using h
        | a :: ps =>
            match s with
            | [] =>
                simp only [globMatchFuel] at h ⊢
                by_cases ha : a = '*'
                · rw [if_pos ha] at h ⊢; exact ih g ps [] hfg' h
                · rw [if_neg ha] at h; exact absurd h (by simp)
            | c :: cs =>
                simp only [globMatchFuel] at h ⊢
                by_cases ha : a = '*'
                · rw [if_pos ha] at h ⊢
                  rw [Bool.or_eq_true] at h ⊢
                  rcases h with h | h
                  · exact Or.inl (ih g ps (c :: cs) hfg' h)
                  · exact Or.inr (ih g (a :: ps) cs hfg' h)
                · rw [if_neg ha] at h ⊢
                  rw [Bool.and_eq_true] at h ⊢
                  exact ⟨h.1, ih g ps cs hfg' h.2⟩

theorem globMatchFuel_lit_self : ∀ (l : List Char), '*' ∉ l → ∀ f, l.length + 1 ≤ f →
    globMatchFuel f l l = true := by
  intro l
  induction l with
  | nil =>
      intro _ f hf
      match f with
      | f + 1 => simp [globMatchFuel]
  | cons c cs ih =>
      intro hl f hf
      match f with
      | f + 1 =>
        have hc : c ≠ '*' := fun h => hl (h ▸ List.mem_cons_self c cs)
        simp only [globMatchFuel, if_neg hc, Bool.and_eq_true, beq_iff_eq]
        exact ⟨trivial, ih (fun h => hl (List.mem_cons_of_mem c h)) f (by simpa using hf)⟩

theorem globMatchFuel_prepend_lit : ∀ (A : List Char), '*' ∉ A → ∀ (p s : List Char) (f : Nat),
    globMatchFuel f p s = true → globMatchFuel (f + A.length) (A ++ p) (A ++ s) = true := by
  intro A
  induction A with
  | nil => intro _ p s f h; simpa using h
  | cons a A ih =>
      intro hA p s f h
      have ha : a ≠ '*' := fun hh => hA (hh ▸ List.mem_cons_self a A)
      have hlen : f + (a :: A).length = (f + A.length) + 1 := by simp; omega
      rw [hlen]
      simp only [List.cons_append, globMatchFuel, if_neg ha, Bool.and_eq_true, beq_iff_eq]
      exact ⟨trivial, ih (fun hh => hA (List.mem_cons_of_mem a hh)) p s f h⟩

theorem globMatchFuel_star_absorb : ∀ (M B s : List Char) (f : Nat),
    globMatchFuel f ('*' :: B) s = true →
    globMatchFuel (f + M.length) ('*' :: B) (M ++ s) = true := by
  intro M
  induction M with
  | nil => intro B s f h; simpa using h
  | cons m M ih =>
      intro B s f h
      have hlen : f + (m :: M).length = (f + M.length) + 1 := by simp; omega
      rw [hlen]
      simp only [List.cons_append, globMatchFuel, eq_self_iff_true, if_true, Bool.or_eq_true]
      exact Or.inr (ih B s f h)

theorem globMatchFuel_star_lit (B : List Char) (hB : '*' ∉ B) (f : Nat)
    (hf : 2 * B.length + 2 ≤ f) : globMatchFuel f ('*' :: B) B = true := by
  match f with
  | f + 1 =>
    match B with
    | [] =>
        have hf1 : 1 ≤ f := by omega
        simp only [globMatchFuel, eq_self_iff_true, if_true]
        match f with
        | f + 1 => simp [globMatchFuel]
    | b :: bs =>
        simp only [globMatchFuel, eq_self_iff_true, if_true, Bool.or_eq_true]
        exact Or.inl (globMatchFuel_lit_self (b :: bs) hB f (by simp at hf ⊢; omega))

/-- The one glob fact the engine relies on: a one-star pattern
`A ++ "*" ++ B` (with literal `A`, `B`) matches every string of the
shape `A ++ M ++ B`. -/
theorem globMatch_star_middle (A M B : String) (hA : '*' ∉ A.data) (hB : '*' ∉ B.data) :
    globMatch (A ++ "*" ++ B) (A ++ M ++ B) = true := by
  have hp : (A ++ "*" ++ B).data = A.data ++ '*' :: B.data := by
    simp [String.data_append]
  have hs : (A ++ M ++ B).data = A.data ++ (M.data ++ B.data) := by
    simp [String.data_append]
  unfold globMatch
  rw [hp, hs]
  have h1 : globMatchFuel (2 * B.data.length + 2) ('*' :: B.data) B.data = true :=
    globMatchFuel_star_lit B.data hB _ (le_refl _)
  have h2 := globMatchFuel_star_absorb M.data B.data B.data _ h1
  have h3 := globMatchFuel_prepend_lit A.data hA _ _ _ h2
  apply globMatchFuel_mono _ _ _ _ _ h3
  have hlen : (A ++ "*" ++ B).length = A.data.length + 1 + B.data.length := by
    show (A ++ "*" ++ B).data.length = _
    rw [hp]; simp; omega
  have hlen2 : (A ++ M ++ B).length = A.data.length + (M.data.length + B.data.length) := by
    show (A ++ M ++ B).data.length = _
    rw [hs]; simp
  rw [hlen, hlen2]
  omega

theorem star_not_mem_append {a b : List Char} (ha : '*' ∉ a) (hb : '*' ∉ b) :
    '*' ∉ a ++ b := by
  intro h
  rcases List.mem_append.mp h with h | h
  · exact ha h
  · exact hb h

theorem star_not_mem_colon : '*' ∉ (":" : String).data := by decide

/-- The canonical key matches the city-pattern search built from the same
city and date (the `*` consumes the `lat:lon` middle). -/
theorem cityPat_matches_canonical {F : Type} (env : Env F) (c la lo dt : String)
    (hpre : '*' ∉ env.keyPre.data) (hc : '*' ∉ (pyLower c).data) (hdt : '*' ∉ dt.data) :
    globMatch (cityPat env c dt) (canonicalKey env c la lo dt) = true := by
  have hA : cityPat env c dt = (env.keyPre ++ ":" ++ pyLower c ++ ":") ++ "*" ++ (":" ++ dt) := by
    apply String.ext
    simp [cityPat, String.data_append]
  have hK : canonicalKey env c la lo dt
      = (env.keyPre ++ ":" ++ pyLower c ++ ":") ++ (la ++ ":" ++ lo) ++ (":" ++ dt) := by
    apply String.ext
    simp [canonicalKey, String.data_append]
  rw [hA, hK]
  apply globMatch_star_middle
  · rw [String.data_append, String.data_append, String.data_append]
    exact star_not_mem_append
      (star_not_mem_append (star_not_mem_append hpre star_not_mem_colon) hc)
      star_not_mem_colon
  · rw [String.data_append]
    exact star_not_mem_append star_not_mem_colon hdt

/-- The canonical key matches the coordinate-pattern search built from
the same coordinates and date (the `*` consumes the city label). -/
theorem coordPat_matches_canonical {F : Type} (env : Env F) (c la lo dt : String)
    (hpre : '*' ∉ env.keyPre.data) (hla : '*' ∉ la.data) (hlo : '*' ∉ lo.data)
    (hdt : '*' ∉ dt.data) :
    globMatch (coordPat env la lo dt) (canonicalKey env c la lo dt) = true := by
  have hA : coordPat env la lo dt
      = (env.keyPre ++ ":") ++ "*" ++ (":" ++ la ++ ":" ++ lo ++ ":" ++ dt) := by
    apply String.ext
    simp [coordPat, String.data_append]
  have hK : canonicalKey env c la lo dt
      = (env.keyPre ++ ":") ++ pyLower c ++ (":" ++ la ++ ":" ++ lo ++ ":" ++ dt) := by
    apply String.ext
    simp [canonicalKey, String.data_append]
  rw [hA, hK]
  apply globMatch_star_middle
  · rw [String.data_append]
    exact star_not_mem_append hpre star_not_mem_colon
  · simp only [String.data_append]
    exact star_not_mem_append
      (star_not_mem_append
        (star_not_mem_append
          (star_not_mem_append (star_not_mem_append star_not_mem_colon hla) star_not_mem_colon)
          hlo)
        star_not_mem_colon)
      hdt

/-! ### Splitting lemmas -/

theorem pySplitChars_sep_cons (sep : Char) (X Y : List Char) (hX : sep ∉ X) :
    pySplitChars sep (X ++ sep :: Y) = X :: pySplitChars sep Y := by
  induction X with
  | nil => simp [pySplitChars]
  | cons x xs ih =>
      have hx : x ≠ sep := fun h => hX (h ▸ List.mem_cons_self x xs)
      have ih' := ih (fun h => hX (List.mem_cons_of_mem x h))
      simp only [List.cons_append, pySplitChars, List.append_eq, ih', if_neg hx]

theorem pySplitChars_no_sep (sep : Char) (X : List Char) (hX : sep ∉ X) :
    pySplitChars sep X = [X] := by
  induction X with
  | nil => simp [pySplitChars]
  | cons x xs ih =>
      have hx : x ≠ sep := fun h => hX (h ▸ List.mem_cons_self x xs)
      have ih' := ih (fun h => hX (List.mem_cons_of_mem x h))
      simp only [pySplitChars, ih', if_neg hx]

/-- Splitting the canonical key on `:` recovers its six components when
the prefix is the one the code documents (`sunspot:data`) and the
components are colon-free. -/
theorem pySplit_canonicalKey {F : Type} (env : Env F) (city la lo dt : String)
    (hpre : env.keyPre = "sunspot:data")
    (hc : ':' ∉ (pyLower city).data) (hla : ':' ∉ la.data) (hlo : ':' ∉ lo.data)
    (hdt : ':' ∉ dt.data) :
    pySplit ':' (canonicalKey env city la lo dt)
      = ["sunspot", "data", pyLower city, la, lo, dt] := by
  have hdata : (canonicalKey env city la lo dt).data
      = "sunspot".data ++ ':' :: ("data".data ++ ':' :: ((pyLower city).data ++ ':' ::
        (la.data ++ ':' :: (lo.data ++ ':' :: dt.data)))) := by
    simp [canonicalKey, hpre, String.data_append]
  unfold pySplit
  rw [hdata]
  rw [pySplitChars_sep_cons _ _ _ (by decide), pySplitChars_sep_cons _ _ _ (by decide),
      pySplitChars_sep_cons _ _ _ hc, pySplitChars_sep_cons _ _ _ hla,
      pySplitChars_sep_cons _ _ _ hlo, pySplitChars_no_sep _ _ hdt]
  simp


/-! ### Calendar lemmas -/

theorem daysInMonth_bounds (y m : Nat) : 28 ≤ daysInMonth y m ∧ daysInMonth y m ≤ 31 := by
  unfold daysInMonth
  split
  · split <;> omega
  · split <;> omega

theorem daysInMonth_jan (y : Nat) : daysInMonth y 1 = 31 := by
  simp [daysInMonth]

theorem daysInMonth_dec (y : Nat) : daysInMonth y 12 = 31 := by
  simp [daysInMonth]

theorem validDate_nextDay {dt : PyDate} (h : ValidDate dt) (hy : dt.y ≤ 9998) :
    ValidDate (nextDay dt) := by
  obtain ⟨h1, h2, h3, h4, h5, h6⟩ := h
  have hb2 := daysInMonth_bounds dt.y (dt.m + 1)
  have hj := daysInMonth_jan (dt.y + 1)
  unfold nextDay
  split
  · refine ⟨?_, ?_, ?_, ?_, ?_, ?_⟩ <;> dsimp only <;> omega
  · split
    · refine ⟨?_, ?_, ?_, ?_, ?_, ?_⟩ <;> dsimp only <;> omega
    · refine ⟨?_, ?_, ?_, ?_, ?_, ?_⟩ <;> dsimp only <;> omega

theorem validDate_prevDay {dt : PyDate} (h : ValidDate dt) (hy : 1001 ≤ dt.y) :
    ValidDate (prevDay dt) := by
  obtain ⟨h1, h2, h3, h4, h5, h6⟩ := h
  have hb := daysInMonth_bounds dt.y dt.m
  have hb2 := daysInMonth_bounds dt.y (dt.m - 1)
  have hd := daysInMonth_dec (dt.y - 1)
  unfold prevDay
  split
  · refine ⟨?_, ?_, ?_, ?_, ?_, ?_⟩ <;> dsimp only <;> omega
  · split
    · refine ⟨?_, ?_, ?_, ?_, ?_, ?_⟩ <;> dsimp only <;> omega
    · refine ⟨?_, ?_, ?_, ?_, ?_, ?_⟩ <;> dsimp only <;> omega

theorem digitChar_isDigit (n : Nat) : (digitChar n).isDigit = true := by
  unfold digitChar
  have h : n % 10 < 10 := Nat.mod_lt _ (by norm_num)
  set k := n % 10 with hk
  interval_cases k <;> decide

/-- The renderer always produces a `YYYY-MM-DD`-shaped string. -/
theorem isYMD_strftimeYMD (dt : PyDate) : isYMD (strftimeYMD dt) = true := by
  unfold isYMD strftimeYMD pad4Chars pad2Chars
  simp [digitChar_isDigit]

/-! ### Store lemmas -/

theorem redisKeys_nil (pat : String) : redisKeys [] pat = [] := rfl

theorem redisKeys_singleton (k v pat : String) (h : globMatch pat k = true) :
    redisKeys [(k, v)] pat = [k] := by
  simp [redisKeys, h]

theorem redisGet_singleton (k v : String) : redisGet [(k, v)] k = some v := by
  simp [redisGet]

theorem redisGet_eraseKey (store : Store) (k : String) :
    redisGet (eraseKey store k) k = none := by
  unfold redisGet eraseKey
  rw [List.find?_eq_none.mpr]
  intro kv hkv
  have := List.mem_filter.mp hkv
  simpa using this.2


/-! ### Trace classification lemmas -/

theorem trace_get_coordinates {F : Type} (env : Env F) (c : String) :
    (get_coordinates_from_city env c).trace = [Ev.geoSearch c] := by
  unfold get_coordinates_from_city
  split
  · rfl
  · split
    · rfl
    · split <;> rfl

theorem trace_get_city {F : Type} (env : Env F) (la lo : String) :
    (get_city_from_coordinates env la lo).trace = [Ev.geoReverse la lo] := by
  unfold get_city_from_coordinates
  split <;> rfl

theorem trace_effectiveCity {F : Type} (env : Env F) (la lo : String) (cn : Option String) :
    ∀ e ∈ (effectiveCity env la lo cn).trace, isGeoEv e = true := by
  intro e he
  unfold effectiveCity at he
  split at he
  · simp at he
  · rw [trace_get_city, List.mem_singleton] at he
    subst he
    rfl

theorem trace_city_lookup {F : Type} (env : Env F) (store : Store) (c d : String) :
    ∀ e ∈ (get_cached_sunspot_by_city env store c d).trace, isCacheEv e = true := by
  intro e he
  unfold get_cached_sunspot_by_city at he
  dsimp only at he
  split at he
  · simp at he
  · rcases h1 : (redisKeys store (cityPat env c d)).head? with _ | k0 <;>
      rw [h1] at he <;> dsimp only at he
    · simp at he
      subst he
      rfl
    · rcases h2 : redisGet store k0 with _ | cd <;> rw [h2] at he <;> dsimp only at he
      · simp at he
        rcases he with rfl | rfl <;> rfl
      · split at he
        · simp at he
          rcases he with rfl | rfl <;> rfl
        · split at he
          · rcases h3 : env.jsonLoads cd with _ | j <;> rw [h3] at he <;> dsimp only at he <;>
              simp at he <;> rcases he with rfl | rfl <;> rfl
          · simp at he
            rcases he with rfl | rfl <;> rfl

theorem trace_coord_lookup {F : Type} (env : Env F) (store : Store) (la lo d : String) :
    ∀ e ∈ (get_cached_sunspot_by_coords env store la lo d).trace, isCacheEv e = true := by
  intro e he
  unfold get_cached_sunspot_by_coords at he
  dsimp only at he
  split at he
  · simp at he
  · rcases h1 : (redisKeys store (coordPat env la lo d)).head? with _ | k0 <;>
      rw [h1] at he <;> dsimp only at he
    · simp at he
      subst he
      rfl
    · rcases h2 : redisGet store k0 with _ | cd <;> rw [h2] at he <;> dsimp only at he
      · simp at he
        rcases he with rfl | rfl <;> rfl
      · split at he
        · simp at he
          rcases he with rfl | rfl <;> rfl
        · split at he
          · rcases h3 : env.jsonLoads cd with _ | j <;> rw [h3] at he <;> dsimp only at he <;>
              simp at he <;> rcases he with rfl | rfl <;> rfl
          · simp at he
            rcases he with rfl | rfl <;> rfl

theorem trace_sunApiFetch {F : Type} (env : Env F) (store : Store)
    (ck la lo res : String) (ttl : Nat) :
    ∀ e ∈ (sunApiFetch env store ck la lo res ttl).trace,
      (isSunEv e || isCacheEv e) = true := by
  intro e he
  unfold sunApiFetch at he
  dsimp only at he
  rcases h1 : env.sunResp la lo res with _ | resp <;> rw [h1] at he <;> dsimp only at he
  · simp at he
    subst he
    rfl
  · split at he
    · rcases h2 : resp.results with _ | r <;> rw [h2] at he <;> dsimp only at he
      · simp at he
        subst he
        rfl
      · split at he
        · simp at he
          rcases he with rfl | rfl <;> rfl
        · simp at he
          subst he
          rfl
    · simp at he
      subst he
      rfl

theorem sunApi_mem_sunApiFetch {F : Type} (env : Env F) (store : Store)
    (ck la lo res : String) (ttl : Nat) :
    Ev.sunApi la lo res ∈ (sunApiFetch env store ck la lo res ttl).trace := by
  unfold sunApiFetch
  dsimp only
  rcases h1 : env.sunResp la lo res with _ | resp <;> dsimp only
  · simp
  · split
    · rcases h2 : resp.results with _ | r <;> dsimp only
      · simp
      · split <;> simp
    · simp

theorem isCoreEv_not_viewHit (e : Ev) (h : isCoreEv e = true) : isViewHitEv e = false := by
  cases e <;> simp_all [isCoreEv, isDR, isGeoEv, isSunEv, isCacheEv, isViewHitEv]

theorem isCacheEv_coreEv (e : Ev) (h : isCacheEv e = true) : isCoreEv e = true := by
  simp [isCoreEv, h]

theorem isGeoEv_coreEv (e : Ev) (h : isGeoEv e = true) : isCoreEv e = true := by
  simp [isCoreEv, h]

theorem isSunEv_coreEv (e : Ev) (h : isSunEv e = true) : isCoreEv e = true := by
  simp [isCoreEv, h]

theorem sunOrCache_coreEv (e : Ev) (h : (isSunEv e || isCacheEv e) = true) :
    isCoreEv e = true := by
  rw [Bool.or_eq_true] at h
  rcases h with h | h
  · exact isSunEv_coreEv e h
  · exact isCacheEv_coreEv e h

theorem trace_get_sunspot {F : Type} (env : Env F) (store : Store) (la lo : String)
    (dp cn : Option String) :
    ∀ e ∈ (get_sunspot env store la lo dp cn).trace, isCoreEv e = true := by
  intro e he
  unfold get_sunspot at he
  dsimp only at he
  rcases h0 : resolve_date_param env dp with _ | resolved <;> rw [h0] at he <;> dsimp only at he
  · simp at he
    subst he
    rfl
  · split at he
    · rcases h1 : redisGet store
          (canonicalKey env (effectiveCity env la lo cn).city la lo resolved) with _ | cd <;>
        rw [h1] at he <;> dsimp only at he
      · simp at he
        rcases he with rfl | he | rfl | he
        · rfl
        · exact isGeoEv_coreEv e (trace_effectiveCity env la lo cn e he)
        · rfl
        · exact sunOrCache_coreEv e (trace_sunApiFetch env store _ la lo resolved env.cacheTTL e he)
      · split at he
        · rcases h2 : env.jsonLoads cd with _ | j <;> rw [h2] at he <;> dsimp only at he
          · simp at he
            rcases he with rfl | he | rfl | he
            · rfl
            · exact isGeoEv_coreEv e (trace_effectiveCity env la lo cn e he)
            · rfl
            · exact sunOrCache_coreEv e (trace_sunApiFetch env store _ la lo resolved env.cacheTTL e he)
          · simp at he
            rcases he with rfl | he | rfl
            · rfl
            · exact isGeoEv_coreEv e (trace_effectiveCity env la lo cn e he)
            · rfl
        · simp at he
          rcases he with rfl | he | rfl | he
          · rfl
          · exact isGeoEv_coreEv e (trace_effectiveCity env la lo cn e he)
          · rfl
          · exact sunOrCache_coreEv e (trace_sunApiFetch env store _ la lo resolved env.cacheTTL e he)
    · simp at he
      rcases he with rfl | he | he
      · rfl
      · exact isGeoEv_coreEv e (trace_effectiveCity env la lo cn e he)
      · exact sunOrCache_coreEv e (trace_sunApiFetch env store _ la lo resolved env.cacheTTL e he)


/-! ### Behaviour when the cache store is unreachable -/

theorem isGeoEv_not_cache (e : Ev) (h : isGeoEv e = true) : isCacheEv e = false := by
  cases e <;> simp_all [isGeoEv, isCacheEv]

theorem city_lookup_off {F : Type} (env : Env F) (store : Store) (c d : String)
    (hr : env.redisAvailable = false) :
    get_cached_sunspot_by_city env store c d
      = { data := none, lat := none, lon := none, trace := [] } := by
  unfold get_cached_sunspot_by_city
  rw [hr]
  rfl

theorem coord_lookup_off {F : Type} (env : Env F) (store : Store) (la lo d : String)
    (hr : env.redisAvailable = false) :
    get_cached_sunspot_by_coords env store la lo d
      = { data := none, city := none, trace := [] } := by
  unfold get_cached_sunspot_by_coords
  rw [hr]
  rfl

theorem sunApiFetch_off_store {F : Type} (env : Env F) (store : Store)
    (ck la lo res : String) (ttl : Nat) (hr : env.redisAvailable = false) :
    (sunApiFetch env store ck la lo res ttl).store = store := by
  unfold sunApiFetch
  dsimp only
  rcases h1 : env.sunResp la lo res with _ | resp
  · rfl
  · dsimp only
    split
    · rcases h2 : resp.results with _ | r
      · rfl
      · dsimp only
        rw [hr]
        simp
    · rfl

theorem sunApiFetch_off_trace {F : Type} (env : Env F) (store : Store)
    (ck la lo res : String) (ttl : Nat) (hr : env.redisAvailable = false) :
    (sunApiFetch env store ck la lo res ttl).trace = [Ev.sunApi la lo res] := by
  unfold sunApiFetch
  dsimp only
  rcases h1 : env.sunResp la lo res with _ | resp
  · rfl
  · dsimp only
    split
    · rcases h2 : resp.results with _ | r
      · rfl
      · dsimp only
        rw [hr]
        simp
    · rfl

theorem get_sunspot_off_store {F : Type} (env : Env F) (store : Store) (la lo : String)
    (dp cn : Option String) (hr : env.redisAvailable = false) :
    (get_sunspot env store la lo dp cn).store = store := by
  unfold get_sunspot
  dsimp only
  rcases h0 : resolve_date_param env dp with _ | resolved
  · rfl
  · dsimp only
    rw [hr]
    simp only [Bool.false_eq_true, if_false]
    exact sunApiFetch_off_store env store _ la lo resolved env.cacheTTL hr

theorem get_sunspot_off_trace {F : Type} (env : Env F) (store : Store) (la lo : String)
    (dp cn : Option String) (hr : env.redisAvailable = false) :
    ∀ e ∈ (get_sunspot env store la lo dp cn).trace, isCacheEv e = false := by
  intro e he
  unfold get_sunspot at he
  dsimp only at he
  rcases h0 : resolve_date_param env dp with _ | resolved <;> rw [h0] at he <;> dsimp only at he
  · simp at he
    subst he
    rfl
  · rw [hr] at he
    simp only [Bool.false_eq_true, if_false] at he
    rw [sunApiFetch_off_trace env store _ la lo resolved env.cacheTTL hr] at he
    simp at he
    rcases he with rfl | he | rfl
    · rfl
    · exact isGeoEv_not_cache e (trace_effectiveCity env la lo cn e he)
    · rfl


/-! ### Claims -/

/-- C7: for a fixed "now" (`env.today`) the date resolver is the
deterministic function established here: absent input and
case-insensitive `"today"` map to now, case-insensitive `"yesterday"`
to the previous calendar day, case-insensitive `"tomorrow"` to the next
one, the shifted days again being valid calendar dates, and every
output is rendered in `YYYY-MM-DD` form. -/
theorem C7_resolver_keywords {F : Type} (env : Env F)
    (hv : ValidDate env.today) (hy1 : 1001 ≤ env.today.y) (hy2 : env.today.y ≤ 9998) :
    resolve_date_param env none = some (strftimeYMD env.today) ∧
    resolve_date_param env (some "") = some (strftimeYMD env.today) ∧
    (∀ s : String, pyLower s = "today" →
      resolve_date_param env (some s) = some (strftimeYMD env.today)) ∧
    (∀ s : String, pyLower s = "yesterday" →
      resolve_date_param env (some s) = some (strftimeYMD (prevDay env.today))) ∧
    (∀ s : String, pyLower s = "tomorrow" →
      resolve_date_param env (some s) = some (strftimeYMD (nextDay env.today))) ∧
    ValidDate (prevDay env.today) ∧ ValidDate (nextDay env.today) ∧
    isYMD (strftimeYMD env.today) = true ∧
    isYMD (strftimeYMD (prevDay env.today)) = true ∧
    isYMD (strftimeYMD (nextDay env.today)) = true := by
  refine ⟨rfl, rfl, ?_, ?_, ?_, validDate_prevDay hv hy1, validDate_nextDay hv hy2,
    isYMD_strftimeYMD _, isYMD_strftimeYMD _, isYMD_strftimeYMD _⟩
  · intro s hs
    simp [resolve_date_param, hs]
  · intro s hs
    have hne : s ≠ "" := by
      intro h
      rw [h] at hs
      exact absurd hs (by decide)
    simp [resolve_date_param, hs, hne]
  · intro s hs
    have hne : s ≠ "" := by
      intro h
      rw [h] at hs
      exact absurd hs (by decide)
    simp [resolve_date_param, hs, hne]

/-- C7 witness: the resolver at the concrete environment. -/
theorem C7_witness :
    resolve_date_param envW none = some "2024-06-21" ∧
    resolve_date_param envW (some "ToMoRRoW") = some "2024-06-22" ∧
    resolve_date_param envW (some "Yesterday") = some "2024-06-20" := by
  obtain ⟨h1, _, _, h4, h5, _⟩ :=
    C7_resolver_keywords envW (by decide) (by decide) (by decide)
  refine ⟨h1.trans (by decide), ?_, ?_⟩
  · exact (h5 "ToMoRRoW" (by decide)).trans (by decide)
  · exact (h4 "Yesterday" (by decide)).trans (by decide)

/-- C5: a malformed (unparseable, non-empty, non-keyword) date string
resolves to `None`, and the handler answers 400 "Invalid date parameter"
with an empty event trace — so neither the geocoder nor the sun-times
provider is contacted — both for a city request and for a coordinate
request whose coordinates parse. -/
theorem C5_invalid_date {F : Type} (env : Env F) (store : Store) (s : String)
    (hne : s ≠ "") (h1 : pyLower s ≠ "today") (h2 : pyLower s ≠ "yesterday")
    (h3 : pyLower s ≠ "tomorrow") (hp : env.parseDate s = none) :
    resolve_date_param env (some s) = none ∧
    (∀ c : String, c ≠ "" →
      sunspot_view env store { city := some c, latp := none, lonp := none, dateParam := some s }
        = { resp := Resp.err 400 "Invalid date parameter", store := store, trace := [] }) ∧
    (∀ lp lnp : String, ∀ fa fb : F, lp ≠ "" → lnp ≠ "" →
      env.pyFloat lp = some fa → env.pyFloat lnp = some fb →
      sunspot_view env store { city := none, latp := some lp, lonp := some lnp, dateParam := some s }
        = { resp := Resp.err 400 "Invalid date parameter", store := store, trace := [] }) := by
  have hres : resolve_date_param env (some s) = none := by
    simp [resolve_date_param, hne, h1, h2, h3, hp]
  refine ⟨hres, ?_, ?_⟩
  · intro c hc
    simp [sunspot_view, optStrTruthy, hc, hres]
  · intro lp lnp fa fb hlp hlnp hfa hfb
    simp [sunspot_view, optStrTruthy, hlp, hlnp, hfa, hfb, hres]

/-- C5 witness: the concrete string `"not-a-date"` is rejected with 400
and an empty trace. -/
theorem C5_witness :
    sunspot_view envW []
        { city := some "Paris", latp := none, lonp := none, dateParam := some "not-a-date" }
      = { resp := Resp.err 400 "Invalid date parameter", store := [], trace := [] } :=
  (C5_invalid_date envW [] "not-a-date" (by decide) (by decide) (by decide) (by decide)
    (by decide)).2.1 "Paris" (by decide)

theorem setEv_ttl_sunApiFetch {F : Type} (env : Env F) (store : Store)
    (ck la lo res : String) (ttl : Nat) (k v : String) (t : Nat)
    (h : Ev.cacheSet k v t ∈ (sunApiFetch env store ck la lo res ttl).trace) : t = ttl := by
  unfold sunApiFetch at h
  dsimp only at h
  rcases h1 : env.sunResp la lo res with _ | resp <;> rw [h1] at h <;> dsimp only at h
  · simp at h
  · split at h
    · rcases h2 : resp.results with _ | r <;> rw [h2] at h <;> dsimp only at h
      · simp at h
      · split at h
        · simp at h
          exact h.2.2
        · simp at h
    · simp at h

/-- C1 (amended): every cache write issued by `get_sunspot` carries the
single constant `settings.CACHE_TTL`, independently of whether the
resolved date equals the current day. -/
theorem C1_ttl_constant {F : Type} (env : Env F) (store : Store) (la lo : String)
    (dp cn : Option String) (k v : String) (t : Nat)
    (h : Ev.cacheSet k v t ∈ (get_sunspot env store la lo dp cn).trace) :
    t = env.cacheTTL := by
  unfold get_sunspot at h
  dsimp only at h
  rcases h0 : resolve_date_param env dp with _ | resolved <;> rw [h0] at h <;> dsimp only at h
  · simp at h
  · split at h
    · rcases h1 : redisGet store
          (canonicalKey env (effectiveCity env la lo cn).city la lo resolved) with _ | cd <;>
        rw [h1] at h <;> dsimp only at h
      · simp at h
        rcases h with h | h
        · have := trace_effectiveCity env la lo cn _ h
          simp [isGeoEv] at this
        · exact setEv_ttl_sunApiFetch env store _ la lo resolved env.cacheTTL k v t h
      · split at h
        · rcases h2 : env.jsonLoads cd with _ | j <;> rw [h2] at h <;> dsimp only at h
          · simp at h
            rcases h with h | h
            · have := trace_effectiveCity env la lo cn _ h
              simp [isGeoEv] at this
            · exact setEv_ttl_sunApiFetch env store _ la lo resolved env.cacheTTL k v t h
          · simp at h
            exact absurd (trace_effectiveCity env la lo cn _ h) (by simp [isGeoEv])
        · simp at h
          rcases h with h | h
          · have := trace_effectiveCity env la lo cn _ h
            simp [isGeoEv] at this
          · exact setEv_ttl_sunApiFetch env store _ la lo resolved env.cacheTTL k v t h
    · simp at h
      rcases h with h | h
      · have := trace_effectiveCity env la lo cn _ h
        simp [isGeoEv] at this
      · exact setEv_ttl_sunApiFetch env store _ la lo resolved env.cacheTTL k v t h

/-- C1 witness: the amended theorem applied at a concrete write. -/
theorem C1_ttl_constant_witness : (3600 : Nat) = envW.cacheTTL :=
  C1_ttl_constant envW [] "40.0" "2.5" (some "today") (some "paris")
    "sunspot:data:paris:40.0:2.5:2024-06-21" "enc" 3600 (by decide)

/-- C1 counterexample: in the concrete environment a write for the
current day and a write for a past day both carry TTL 3600, so no pair
of distinct short/long TTL constants can describe the writes the code
performs; the claimed `short if today else long` rule is false of the
code, which always passes the single `settings.CACHE_TTL`. -/
theorem C1_counterexample :
    setTTLs (get_sunspot envW [] "40.0" "2.5" (some "today") (some "paris")).trace = [3600] ∧
    (get_sunspot envW [] "40.0" "2.5" (some "today") (some "paris")).dateStr
      = some (strftimeYMD envW.today) ∧
    setTTLs (get_sunspot envW [] "40.0" "2.5" (some "2020-05-05") (some "paris")).trace
      = [3600] ∧
    (get_sunspot envW [] "40.0" "2.5" (some "2020-05-05") (some "paris")).dateStr
      = some "2020-05-05" ∧
    ("2020-05-05" : String) ≠ strftimeYMD envW.today ∧
    ¬ ∃ shortTTL longTTL : Nat, shortTTL ≠ longTTL ∧
        setTTLs (get_sunspot envW [] "40.0" "2.5" (some "today") (some "paris")).trace
          = [shortTTL] ∧
        setTTLs (get_sunspot envW [] "40.0" "2.5" (some "2020-05-05") (some "paris")).trace
          = [longTTL] := by
  refine ⟨by decide, by decide, by decide, by decide, by decide, ?_⟩
  rintro ⟨shortTTL, longTTL, hdist, hs, hl⟩
  have hs3 : setTTLs (get_sunspot envW [] "40.0" "2.5" (some "today") (some "paris")).trace
      = [3600] := by decide
  have hl3 : setTTLs (get_sunspot envW [] "40.0" "2.5" (some "2020-05-05") (some "paris")).trace
      = [3600] := by decide
  rw [hs3] at hs
  rw [hl3] at hl
  injection hs with hs _
  injection hl with hl _
  exact hdist (hs.symm.trans hl)


theorem get_sunspot_off_api {F : Type} (env : Env F) (store : Store) (la lo : String)
    (ds : Option String) (res : String) (cn : Option String) (r : Json)
    (hr : env.redisAvailable = false)
    (hres : resolve_date_param env ds = some res)
    (hapi : env.sunResp la lo res = some { status := some "OK", results := some r }) :
    get_sunspot env store la lo ds cn
      = { data := some r, dateStr := some res,
          city := some (effectiveCity env la lo cn).city, store := store,
          trace := Ev.dataRetrieval :: (effectiveCity env la lo cn).trace
            ++ [Ev.sunApi la lo res] } := by
  unfold get_sunspot
  dsimp only
  rw [hres]
  dsimp only
  rw [hr]
  simp only [Bool.false_eq_true, if_false]
  unfold sunApiFetch
  dsimp only
  rw [hapi]
  dsimp only
  simp [hr]

/-- C2: with the Cache Store unreachable (the client handle is the
unavailable sentinel), no request ever emits a cache command or changes
the store — every lookup and write is a silent no-op — and a coordinate
request whose inputs parse and whose upstream call succeeds still
returns the full 200 response sourced from the upstream provider
(`source = "api"`); cache unavailability never becomes a request-level
error. -/
theorem C2_cache_unavailable {F : Type} (env : Env F) (store : Store)
    (hr : env.redisAvailable = false) :
    (∀ req : Request, (sunspot_view env store req).store = store ∧
       ∀ e ∈ (sunspot_view env store req).trace, isCacheEv e = false) ∧
    (∀ lp lnp ds res : String, ∀ fa fb : F, ∀ r : Json,
       lp ≠ "" → lnp ≠ "" →
       env.pyFloat lp = some fa → env.pyFloat lnp = some fb →
       resolve_date_param env (some ds) = some res →
       env.sunResp (env.pyStr fa) (env.pyStr fb) res
         = some { status := some "OK", results := some r } →
       jsonTruthy r = true →
       sunspot_view env store { city := none, latp := some lp, lonp := some lnp,
                                dateParam := some ds }
         = { resp := Resp.ok
               (cityField (some (get_city_from_coordinates env (env.pyStr fa) (env.pyStr fb)).city)
                 (env.pyStr fa) (env.pyStr fb))
               (some (env.pyStr fa)) (some (env.pyStr fb)) (some res) r "api",
             store := store,
             trace := [Ev.dataRetrieval, Ev.geoReverse (env.pyStr fa) (env.pyStr fb),
               Ev.sunApi (env.pyStr fa) (env.pyStr fb) res] }) := by
  constructor
  · intro req
    unfold sunspot_view
    dsimp only
    split
    · rcases h0 : resolve_date_param env req.dateParam with _ | resolved <;> dsimp only
      · exact ⟨rfl, by intro e he; simp at he⟩
      · rw [city_lookup_off env store _ resolved hr]
        dsimp only [optJsonTruthy, optStrTruthy]
        simp only [Bool.false_and, Bool.false_eq_true, if_false]
        split
        · refine ⟨rfl, ?_⟩
          intro e he
          rw [trace_get_coordinates] at he
          simp at he
          subst he
          rfl
        · split
          · refine ⟨get_sunspot_off_store env store _ _ _ _ hr, ?_⟩
            intro e he
            rw [trace_get_coordinates] at he
            simp at he
            rcases he with rfl | he
            · rfl
            · exact get_sunspot_off_trace env store _ _ _ _ hr e he
          · refine ⟨get_sunspot_off_store env store _ _ _ _ hr, ?_⟩
            intro e he
            rw [trace_get_coordinates] at he
            simp at he
            rcases he with rfl | he
            · rfl
            · exact get_sunspot_off_trace env store _ _ _ _ hr e he
    · split
      · rcases hfa : env.pyFloat (req.latp.getD "") with _ | fa <;> dsimp only
        · exact ⟨rfl, by intro e he; simp at he⟩
        · rcases hfb : env.pyFloat (req.lonp.getD "") with _ | fb <;> dsimp only
          · exact ⟨rfl, by intro e he; simp at he⟩
          · rcases h0 : resolve_date_param env req.dateParam with _ | resolved <;> dsimp only
            · exact ⟨rfl, by intro e he; simp at he⟩
            · rw [coord_lookup_off env store _ _ resolved hr]
              dsimp only [optJsonTruthy, optStrTruthy]
              simp only [Bool.false_and, Bool.false_eq_true, if_false]
              split
              · refine ⟨get_sunspot_off_store env store _ _ _ _ hr, ?_⟩
                intro e he
                simp at he
                exact get_sunspot_off_trace env store _ _ _ _ hr e he
              · refine ⟨get_sunspot_off_store env store _ _ _ _ hr, ?_⟩
                intro e he
                simp at he
                exact get_sunspot_off_trace env store _ _ _ _ hr e he
      · exact ⟨rfl, by intro e he; simp at he⟩
  · intro lp lnp ds res fa fb r hlp hlnp hfa hfb hres hapi htr
    unfold sunspot_view
    dsimp only
    rw [if_neg (by simp [optStrTruthy])]
    rw [if_pos (by simp [optStrTruthy, hlp, hlnp])]
    simp only [Option.getD_some]
    rw [hfa]
    dsimp only
    rw [hfb]
    dsimp only
    rw [hres]
    dsimp only
    rw [coord_lookup_off env store _ _ res hr]
    dsimp only [optJsonTruthy, optStrTruthy]
    simp only [Bool.false_and, Bool.false_eq_true, if_false]
    rw [get_sunspot_off_api env store (env.pyStr fa) (env.pyStr fb) (some ds) res none r
      hr hres hapi]
    dsimp only [optJsonTruthy]
    rw [if_pos htr]
    unfold effectiveCity
    dsimp only [optStrTruthy]
    simp [trace_get_city]

/-- C2 witness: the spec scenario `(lat=48.8566, lon=2.3522,
date="2024-06-21")` with the store forced unreachable still succeeds
from the upstream provider. -/
theorem C2_witness :
    sunspot_view envWoff [] { city := none, latp := some "48.8566", lonp := some "2.3522",
                              dateParam := some "2024-06-21" }
      = { resp := Resp.ok "Paris" (some "48.8566") (some "2.3522") (some "2024-06-21")
            jsonA "api",
          store := [],
          trace := [Ev.dataRetrieval, Ev.geoReverse "48.8566" "2.3522",
            Ev.sunApi "48.8566" "2.3522" "2024-06-21"] } := by
  have h := (C2_cache_unavailable envWoff [] rfl).2 "48.8566" "2.3522" "2024-06-21"
    "2024-06-21" 4885 235 jsonA (by decide) (by decide) (by decide) (by decide)
    (by decide) rfl (by decide)
  rw [h]
  rfl


theorem viewHit_not_sun {F : Type} (env : Env F) (store : Store) (la lo : String)
    (dp cn : Option String) (e : Ev) (he : e ∈ (get_sunspot env store la lo dp cn).trace)
    (hv : isViewHitEv e = true) : False := by
  have := isCoreEv_not_viewHit e (trace_get_sunspot env store la lo dp cn e he)
  rw [this] at hv
  exact Bool.false_ne_true hv

/-- C9: the `source` field of a successful response is `"cache"` exactly
when one of the two handler-level pattern-shortcut branches answered
(the branches that emit the `cache_hit_city_based` /
`cache_hit_coordinate_based` span events); any request that reaches
`get_sunspot` (the `sunspot.data_retrieval` span) and succeeds reports
`source = "api"`, even when `get_sunspot` served the payload from the
exact canonical cache key — its local `source = "cache"` assignment is
never returned. -/
theorem C9_source_field {F : Type} (env : Env F) (store : Store) (req : Request) :
    (∀ c la lo dt j s, (sunspot_view env store req).resp = Resp.ok c la lo dt j s →
       (s = "cache" ↔ (Ev.viewCityCacheHit ∈ (sunspot_view env store req).trace
         ∨ Ev.viewCoordCacheHit ∈ (sunspot_view env store req).trace))) ∧
    (Ev.dataRetrieval ∈ (sunspot_view env store req).trace →
      ∀ c la lo dt j s, (sunspot_view env store req).resp = Resp.ok c la lo dt j s →
        s = "api") := by
  unfold sunspot_view
  dsimp only
  split
  · rcases h0 : resolve_date_param env req.dateParam with _ | resolved <;> dsimp only
    · exact ⟨fun c la lo dt j s h => absurd h (by simp), fun hm => absurd hm (by simp)⟩
    · split
      · -- city-pattern shortcut hit
        constructor
        · intro c la lo dt j s h
          simp only [Resp.ok.injEq] at h
          obtain ⟨-, -, -, -, -, hs⟩ := h
          subst hs
          simp
        · intro hm
          simp at hm
          have := trace_city_lookup env store _ resolved _ hm
          simp [isCacheEv] at this
      · split
        · exact ⟨fun c la lo dt j s h => absurd h (by simp),
            fun _ c la lo dt j s h => absurd h (by simp)⟩
        · split
          · -- fell through to get_sunspot, success: source "api"
            constructor
            · intro c la lo dt j s h
              simp only [Resp.ok.injEq] at h
              obtain ⟨-, -, -, -, -, hs⟩ := h
              subst hs
              constructor
              · intro hc
                exact absurd hc (by decide)
              · intro hm
                exfalso
                rcases hm with hm | hm <;> simp at hm <;>
                  rcases hm with hm | hm | hm
                · have := trace_city_lookup env store _ resolved _ hm
                  simp [isCacheEv] at this
                · rw [trace_get_coordinates] at hm
                  simp at hm
                · exact viewHit_not_sun env store _ _ _ _ _ hm rfl
                · have := trace_city_lookup env store _ resolved _ hm
                  simp [isCacheEv] at this
                · rw [trace_get_coordinates] at hm
                  simp at hm
                · exact viewHit_not_sun env store _ _ _ _ _ hm rfl
            · intro hm c la lo dt j s h
              simp only [Resp.ok.injEq] at h
              obtain ⟨-, -, -, -, -, hs⟩ := h
              exact hs.symm
          · exact ⟨fun c la lo dt j s h => absurd h (by simp),
              fun _ c la lo dt j s h => absurd h (by simp)⟩
  · split
    · rcases hfa : env.pyFloat (req.latp.getD "") with _ | fa <;> dsimp only
      · exact ⟨fun c la lo dt j s h => absurd h (by simp), fun hm => absurd hm (by simp)⟩
      · rcases hfb : env.pyFloat (req.lonp.getD "") with _ | fb <;> dsimp only
        · exact ⟨fun c la lo dt j s h => absurd h (by simp), fun hm => absurd hm (by simp)⟩
        · rcases h0 : resolve_date_param env req.dateParam with _ | resolved <;> dsimp only
          · exact ⟨fun c la lo dt j s h => absurd h (by simp), fun hm => absurd hm (by simp)⟩
          · split
            · -- coordinate-pattern shortcut hit
              constructor
              · intro c la lo dt j s h
                simp only [Resp.ok.injEq] at h
                obtain ⟨-, -, -, -, -, hs⟩ := h
                subst hs
                simp
              · intro hm
                simp at hm
                have := trace_coord_lookup env store _ _ resolved _ hm
                simp [isCacheEv] at this
            · split
              · constructor
                · intro c la lo dt j s h
                  simp only [Resp.ok.injEq] at h
                  obtain ⟨-, -, -, -, -, hs⟩ := h
                  subst hs
                  constructor
                  · intro hc
                    exact absurd hc (by decide)
                  · intro hm
                    exfalso
                    rcases hm with hm | hm <;> simp at hm <;> rcases hm with hm | hm
                    · have := trace_coord_lookup env store _ _ resolved _ hm
                      simp [isCacheEv] at this
                    · exact viewHit_not_sun env store _ _ _ _ _ hm rfl
                    · have := trace_coord_lookup env store _ _ resolved _ hm
                      simp [isCacheEv] at this
                    · exact viewHit_not_sun env store _ _ _ _ _ hm rfl
                · intro hm c la lo dt j s h
                  simp only [Resp.ok.injEq] at h
                  obtain ⟨-, -, -, -, -, hs⟩ := h
                  exact hs.symm
              · exact ⟨fun c la lo dt j s h => absurd h (by simp),
                  fun _ c la lo dt j s h => absurd h (by simp)⟩
    · exact ⟨fun c la lo dt j s h => absurd h (by simp), fun hm => absurd hm (by simp)⟩

/-- C9 witness: a store whose first city-pattern match is corrupt while
the exact canonical key holds a good payload; the request reaches
`get_sunspot`, is served from the exact key, and the response still says
`source = "api"`. -/
theorem C9_witness :
    (sunspot_view envW
        [("sunspot:data:paris:9.9:8.8:2024-01-01", "corrupt"),
         ("sunspot:data:paris:48.85:2.35:2024-01-01", "enc")]
        { city := some "Paris", latp := none, lonp := none, dateParam := some "2024-01-01" }).resp
      = Resp.ok "Paris" (some "48.85") (some "2.35") (some "2024-01-01") jsonA "api" ∧
    Ev.cacheGet "sunspot:data:paris:48.85:2.35:2024-01-01" ∈
      (sunspot_view envW
        [("sunspot:data:paris:9.9:8.8:2024-01-01", "corrupt"),
         ("sunspot:data:paris:48.85:2.35:2024-01-01", "enc")]
        { city := some "Paris", latp := none, lonp := none, dateParam := some "2024-01-01" }).trace ∧
    Ev.dataRetrieval ∈
      (sunspot_view envW
        [("sunspot:data:paris:9.9:8.8:2024-01-01", "corrupt"),
         ("sunspot:data:paris:48.85:2.35:2024-01-01", "enc")]
        { city := some "Paris", latp := none, lonp := none, dateParam := some "2024-01-01" }).trace ∧
    ("api" : String) = "api" := by
  refine ⟨rfl, by decide, by decide, ?_⟩
  exact (C9_source_field envW
    [("sunspot:data:paris:9.9:8.8:2024-01-01", "corrupt"),
     ("sunspot:data:paris:48.85:2.35:2024-01-01", "enc")]
    { city := some "Paris", latp := none, lonp := none, dateParam := some "2024-01-01" }).2
    (by decide) _ _ _ _ _ _ rfl


theorem cacheKeys_mem_coord_lookup {F : Type} (env : Env F) (store : Store)
    (la lo d : String) (hr : env.redisAvailable = true) :
    Ev.cacheKeys (coordPat env la lo d)
      ∈ (get_cached_sunspot_by_coords env store la lo d).trace := by
  unfold get_cached_sunspot_by_coords
  dsimp only
  rw [hr]
  simp only [Bool.not_true, Bool.false_eq_true, if_false]
  rcases h1 : (redisKeys store (coordPat env la lo d)).head? with _ | k0 <;> dsimp only
  · simp
  · rcases h2 : redisGet store k0 with _ | cd <;> dsimp only
    · simp
    · split
      · simp
      · split
        · rcases h3 : env.jsonLoads cd with _ | j <;> dsimp only <;> simp
        · simp

/-- C10: a coordinate request (no city, non-empty lat/lon parameters) is
answered 400 "Invalid lat/lon format" exactly when Python `float()`
fails on the lat or the lon string; when both parse, the values are
re-rendered through `str()` and those normalized strings — including
Python-accepted forms such as `"nan"`, `"inf"` or `"1e2"` (normal form
`"100.0"`) — are used verbatim to build the coordinate-pattern cache
probe rather than being rejected. -/
theorem C10_invalid_coords {F : Type} (env : Env F) (store : Store)
    (lp lnp : String) (dp : Option String) (hlp : lp ≠ "") (hlnp : lnp ≠ "") :
    ((sunspot_view env store
        { city := none, latp := some lp, lonp := some lnp, dateParam := dp }).resp
        = Resp.err 400 "Invalid lat/lon format"
      ↔ (env.pyFloat lp = none ∨ env.pyFloat lnp = none)) ∧
    (∀ fa fb : F, ∀ res : String,
      env.pyFloat lp = some fa → env.pyFloat lnp = some fb →
      resolve_date_param env dp = some res →
      env.redisAvailable = true →
      Ev.cacheKeys (coordPat env (env.pyStr fa) (env.pyStr fb) res)
        ∈ (sunspot_view env store
            { city := none, latp := some lp, lonp := some lnp, dateParam := dp }).trace) := by
  unfold sunspot_view
  dsimp only
  rw [if_neg (by simp [optStrTruthy])]
  rw [if_pos (by simp [optStrTruthy, hlp, hlnp])]
  simp only [Option.getD_some]
  constructor
  · rcases hfa : env.pyFloat lp with _ | fa <;> dsimp only
    · simp
    · rcases hfb : env.pyFloat lnp with _ | fb <;> dsimp only
      · simp
      · rcases h0 : resolve_date_param env dp with _ | resolved <;> dsimp only
        · constructor
          · intro h
            simp [Resp.err.injEq] at h
          · intro h
            rcases h with h | h <;> simp at h
        · constructor
          · intro h
            split at h
            · simp at h
            · split at h <;> simp [Resp.err.injEq] at h
          · intro h
            rcases h with h | h <;> simp at h
  · intro fa fb res hfa hfb hres hr
    rw [hfa]
    dsimp only
    rw [hfb]
    dsimp only
    rw [hres]
    dsimp only
    split
    · exact List.mem_append_left _
        (cacheKeys_mem_coord_lookup env store (env.pyStr fa) (env.pyStr fb) res hr)
    · split <;>
        exact List.mem_append_left _
          (cacheKeys_mem_coord_lookup env store (env.pyStr fa) (env.pyStr fb) res hr)

/-- C10 witness: `"oops"` is rejected, `"nan"` is accepted, and a
request with `lat="1e2"` probes the cache with the normalized string
`"100.0"`. -/
theorem C10_witness :
    (sunspot_view envW []
        { city := none, latp := some "oops", lonp := some "2.5",
          dateParam := some "2024-01-01" }).resp
      = Resp.err 400 "Invalid lat/lon format" ∧
    ¬ ((sunspot_view envW []
        { city := none, latp := some "nan", lonp := some "2.5",
          dateParam := some "2024-01-01" }).resp
      = Resp.err 400 "Invalid lat/lon format") ∧
    Ev.cacheKeys "sunspot:data:*:100.0:2.5:2024-01-01"
      ∈ (sunspot_view envW []
          { city := none, latp := some "1e2", lonp := some "2.5",
            dateParam := some "2024-01-01" }).trace := by
  refine ⟨?_, ?_, ?_⟩
  · exact (C10_invalid_coords envW [] "oops" "2.5" (some "2024-01-01") (by decide)
      (by decide)).1.mpr (Or.inl (by decide))
  · intro h
    rcases (C10_invalid_coords envW [] "nan" "2.5" (some "2024-01-01") (by decide)
      (by decide)).1.mp h with hc | hc
    · exact absurd hc (by decide)
    · exact absurd hc (by decide)
  · exact (C10_invalid_coords envW [] "1e2" "2.5" (some "2024-01-01") (by decide)
      (by decide)).2 1000 25 "2024-01-01" (by decide) (by decide) (by decide) rfl


theorem sunApiFetch_store_indep {F : Type} (env : Env F) (s1 s2 : Store)
    (ck la lo res : String) (ttl : Nat) :
    (sunApiFetch env s1 ck la lo res ttl).data = (sunApiFetch env s2 ck la lo res ttl).data ∧
    (sunApiFetch env s1 ck la lo res ttl).trace
      = (sunApiFetch env s2 ck la lo res ttl).trace := by
  unfold sunApiFetch
  dsimp only
  rcases h1 : env.sunResp la lo res with _ | resp <;> dsimp only
  · exact ⟨rfl, rfl⟩
  · split
    · rcases h2 : resp.results with _ | r <;> dsimp only
      · exact ⟨rfl, rfl⟩
      · split <;> exact ⟨rfl, rfl⟩
    · exact ⟨rfl, rfl⟩

/-- C8: a stored payload that fails to decode is treated exactly like a
miss.  In `get_sunspot`, a corrupt value at the canonical key makes the
run agree — in returned payload, resolved date, city and even the whole
event trace, hence including the sun-times call issued as on a miss —
with the run on the store with that entry deleted; the decode failure
never shows up in the result.  In the city-pattern lookup, a corrupt
payload at the first matching key yields the plain miss triple. -/
theorem C8_corrupt_is_miss {F : Type} (env : Env F) (store : Store) :
    (∀ la lo : String, ∀ dp cn : Option String, ∀ res v : String,
      resolve_date_param env dp = some res → env.redisAvailable = true →
      redisGet store (canonicalKey env (effectiveCity env la lo cn).city la lo res) = some v →
      v ≠ "" → env.jsonLoads v = none →
      ((get_sunspot env store la lo dp cn).data
          = (get_sunspot env
              (eraseKey store (canonicalKey env (effectiveCity env la lo cn).city la lo res))
              la lo dp cn).data ∧
        (get_sunspot env store la lo dp cn).dateStr
          = (get_sunspot env
              (eraseKey store (canonicalKey env (effectiveCity env la lo cn).city la lo res))
              la lo dp cn).dateStr ∧
        (get_sunspot env store la lo dp cn).city
          = (get_sunspot env
              (eraseKey store (canonicalKey env (effectiveCity env la lo cn).city la lo res))
              la lo dp cn).city ∧
        (get_sunspot env store la lo dp cn).trace
          = (get_sunspot env
              (eraseKey store (canonicalKey env (effectiveCity env la lo cn).city la lo res))
              la lo dp cn).trace) ∧
      Ev.sunApi la lo res ∈ (get_sunspot env store la lo dp cn).trace) ∧
    (∀ c d k0 v : String, env.redisAvailable = true →
      (redisKeys store (cityPat env c d)).head? = some k0 →
      redisGet store k0 = some v → v ≠ "" → env.jsonLoads v = none →
      get_cached_sunspot_by_city env store c d
        = { data := none, lat := none, lon := none,
            trace := [Ev.cacheKeys (cityPat env c d), Ev.cacheGet k0] }) := by
  constructor
  · intro la lo dp cn res v hres hr hget hv hbad
    have hindep := sunApiFetch_store_indep env store
      (eraseKey store (canonicalKey env (effectiveCity env la lo cn).city la lo res))
      (canonicalKey env (effectiveCity env la lo cn).city la lo res) la lo res env.cacheTTL
    constructor
    · unfold get_sunspot
      dsimp only
      rw [hres]
      dsimp only
      rw [if_pos hr, if_pos hr, hget,
        redisGet_eraseKey store (canonicalKey env (effectiveCity env la lo cn).city la lo res)]
      dsimp only
      rw [if_pos hv, hbad]
      dsimp only
      exact ⟨hindep.1, rfl, rfl, by rw [hindep.2]⟩
    · unfold get_sunspot
      dsimp only
      rw [hres]
      dsimp only
      rw [if_pos hr, hget]
      dsimp only
      rw [if_pos hv, hbad]
      dsimp only
      exact List.mem_append_right _
        (sunApi_mem_sunApiFetch env store _ la lo res env.cacheTTL)
  · intro c d k0 v hr hhead hget hv hbad
    unfold get_cached_sunspot_by_city
    dsimp only
    rw [hr]
    simp only [Bool.not_true, Bool.false_eq_true, if_false]
    rw [hhead]
    dsimp only
    rw [hget]
    dsimp only
    rw [if_neg (by simp [hv]), hbad]
    dsimp only
    split <;> rfl

/-- C8 witness: a concrete corrupt entry at the canonical Paris key
behaves exactly like its absence, and the corrupt city-pattern match
yields the miss triple. -/
theorem C8_witness :
    ((get_sunspot envW [("sunspot:data:paris:48.85:2.35:2024-01-01", "corrupt")]
        "48.85" "2.35" (some "2024-01-01") (some "paris")).data
      = (get_sunspot envW
          (eraseKey [("sunspot:data:paris:48.85:2.35:2024-01-01", "corrupt")]
            "sunspot:data:paris:48.85:2.35:2024-01-01")
          "48.85" "2.35" (some "2024-01-01") (some "paris")).data) ∧
    Ev.sunApi "48.85" "2.35" "2024-01-01"
      ∈ (get_sunspot envW [("sunspot:data:paris:48.85:2.35:2024-01-01", "corrupt")]
          "48.85" "2.35" (some "2024-01-01") (some "paris")).trace ∧
    get_cached_sunspot_by_city envW
        [("sunspot:data:paris:48.85:2.35:2024-01-01", "corrupt")] "paris" "2024-01-01"
      = { data := none, lat := none, lon := none,
          trace := [Ev.cacheKeys "sunspot:data:paris:*:2024-01-01",
            Ev.cacheGet "sunspot:data:paris:48.85:2.35:2024-01-01"] } := by
  have h := C8_corrupt_is_miss envW [("sunspot:data:paris:48.85:2.35:2024-01-01", "corrupt")]
  refine ⟨?_, ?_, ?_⟩
  · exact (h.1 "48.85" "2.35" (some "2024-01-01") (some "paris") "2024-01-01" "corrupt"
      (by decide) rfl (by decide) (by decide) rfl).1.1
  · exact (h.1 "48.85" "2.35" (some "2024-01-01") (some "paris") "2024-01-01" "corrupt"
      (by decide) rfl (by decide) (by decide) rfl).2
  · exact h.2 "paris" "2024-01-01" "sunspot:data:paris:48.85:2.35:2024-01-01" "corrupt"
      rfl (by decide) (by decide) (by decide) rfl


theorem city_lookup_hit {F : Type} (env : Env F) (store : Store) (cN d k0 v : String) (j : Json)
    (hr : env.redisAvailable = true)
    (hhead : (redisKeys store (cityPat env cN d)).head? = some k0)
    (hget : redisGet store k0 = some v) (hv : v ≠ "")
    (hj : env.jsonLoads v = some j) (hlen : 5 ≤ (pySplit ':' k0).length) :
    get_cached_sunspot_by_city env store cN d
      = { data := some j, lat := some ((pySplit ':' k0).getD 3 ""),
          lon := some ((pySplit ':' k0).getD 4 ""),
          trace := [Ev.cacheKeys (cityPat env cN d), Ev.cacheGet k0] } := by
  unfold get_cached_sunspot_by_city
  dsimp only
  rw [hr]
  simp only [Bool.not_true, Bool.false_eq_true, if_false]
  rw [hhead]
  dsimp only
  rw [hget]
  dsimp only
  rw [if_neg (by simp [hv]), if_pos hlen, hj]

theorem coord_lookup_hit {F : Type} (env : Env F) (store : Store) (la lo d k0 v : String)
    (j : Json) (hr : env.redisAvailable = true)
    (hhead : (redisKeys store (coordPat env la lo d)).head? = some k0)
    (hget : redisGet store k0 = some v) (hv : v ≠ "")
    (hj : env.jsonLoads v = some j) (hlen : 3 ≤ (pySplit ':' k0).length) :
    get_cached_sunspot_by_coords env store la lo d
      = { data := some j, city := some ((pySplit ':' k0).getD 2 ""),
          trace := [Ev.cacheKeys (coordPat env la lo d), Ev.cacheGet k0] } := by
  unfold get_cached_sunspot_by_coords
  dsimp only
  rw [hr]
  simp only [Bool.not_true, Bool.false_eq_true, if_false]
  rw [hhead]
  dsimp only
  rw [hget]
  dsimp only
  rw [if_neg (by simp [hv]), if_pos hlen, hj]

theorem view_city_shortcut_hit {F : Type} (env : Env F) (store : Store) (c : String)
    (dp : Option String) (res k0 v : String) (j : Json)
    (hc : pyStrip c ≠ "")
    (hres : resolve_date_param env dp = some res)
    (hr : env.redisAvailable = true)
    (hhead : (redisKeys store (cityPat env (pyLower (pyStrip c)) res)).head? = some k0)
    (hget : redisGet store k0 = some v) (hv : v ≠ "")
    (hj : env.jsonLoads v = some j) (htr : jsonTruthy j = true)
    (hlen : 5 ≤ (pySplit ':' k0).length)
    (hlat : (pySplit ':' k0).getD 3 "" ≠ "") (hlon : (pySplit ':' k0).getD 4 "" ≠ "") :
    sunspot_view env store { city := some c, latp := none, lonp := none, dateParam := dp }
      = { resp := Resp.ok (pyTitle (pyStrip c)) (some ((pySplit ':' k0).getD 3 ""))
            (some ((pySplit ':' k0).getD 4 "")) (some res) j "cache",
          store := store,
          trace := [Ev.cacheKeys (cityPat env (pyLower (pyStrip c)) res), Ev.cacheGet k0,
            Ev.viewCityCacheHit] } := by
  have hcne : c ≠ "" := by
    intro h
    rw [h] at hc
    exact hc rfl
  unfold sunspot_view
  dsimp only
  rw [if_pos (by simp [optStrTruthy, hcne])]
  simp only [Option.getD_some]
  rw [hres]
  dsimp only
  rw [city_lookup_hit env store (pyLower (pyStrip c)) res k0 v j hr hhead hget hv hj hlen]
  dsimp only
  rw [if_pos (by
    simp only [optJsonTruthy, optStrTruthy, htr, Bool.true_and, Bool.and_eq_true]
    exact ⟨bne_iff_ne.mpr hlat, bne_iff_ne.mpr hlon⟩)]
  rfl

theorem view_coord_shortcut_hit {F : Type} (env : Env F) (store : Store) (lp lnp : String)
    (dp : Option String) (fa fb : F) (res k0 v : String) (j : Json)
    (hlp : lp ≠ "") (hlnp : lnp ≠ "")
    (hfa : env.pyFloat lp = some fa) (hfb : env.pyFloat lnp = some fb)
    (hres : resolve_date_param env dp = some res)
    (hr : env.redisAvailable = true)
    (hhead : (redisKeys store (coordPat env (env.pyStr fa) (env.pyStr fb) res)).head?
      = some k0)
    (hget : redisGet store k0 = some v) (hv : v ≠ "")
    (hj : env.jsonLoads v = some j) (htr : jsonTruthy j = true)
    (hlen : 3 ≤ (pySplit ':' k0).length)
    (hcity : (pySplit ':' k0).getD 2 "" ≠ "") :
    sunspot_view env store { city := none, latp := some lp, lonp := some lnp, dateParam := dp }
      = { resp := Resp.ok (pyTitle ((pySplit ':' k0).getD 2 "")) (some (env.pyStr fa))
            (some (env.pyStr fb)) (some res) j "cache",
          store := store,
          trace := [Ev.cacheKeys (coordPat env (env.pyStr fa) (env.pyStr fb) res),
            Ev.cacheGet k0, Ev.viewCoordCacheHit] } := by
  unfold sunspot_view
  dsimp only
  rw [if_neg (by simp [optStrTruthy])]
  rw [if_pos (by simp [optStrTruthy, hlp, hlnp])]
  simp only [Option.getD_some]
  rw [hfa]
  dsimp only
  rw [hfb]
  dsimp only
  rw [hres]
  dsimp only
  rw [coord_lookup_hit env store (env.pyStr fa) (env.pyStr fb) res k0 v j hr hhead hget hv
    hj hlen]
  dsimp only
  rw [if_pos (by
    simp only [optJsonTruthy, optStrTruthy, htr, Bool.true_and]
    exact bne_iff_ne.mpr hcity)]
  rfl

/-- C3 (amended): for a city request with a valid date, if the first key
in store-enumeration order matching the city pattern
`{prefix}:{city}:*:{date}` holds a payload that decodes to a truthy
value and embeds non-empty latitude/longitude components (split
positions 3 and 4), the request is answered as a cache hit: the decoded
payload with the key-embedded coordinates, `source = "cache"`, and the
geocoding provider is never contacted. -/
theorem C3_city_pattern_hit {F : Type} (env : Env F) (store : Store) (c : String)
    (dp : Option String) (res k0 v : String) (j : Json)
    (hc : pyStrip c ≠ "")
    (hres : resolve_date_param env dp = some res)
    (hr : env.redisAvailable = true)
    (hhead : (redisKeys store (cityPat env (pyLower (pyStrip c)) res)).head? = some k0)
    (hget : redisGet store k0 = some v) (hv : v ≠ "")
    (hj : env.jsonLoads v = some j) (htr : jsonTruthy j = true)
    (hlen : 5 ≤ (pySplit ':' k0).length)
    (hlat : (pySplit ':' k0).getD 3 "" ≠ "") (hlon : (pySplit ':' k0).getD 4 "" ≠ "") :
    sunspot_view env store { city := some c, latp := none, lonp := none, dateParam := dp }
      = { resp := Resp.ok (pyTitle (pyStrip c)) (some ((pySplit ':' k0).getD 3 ""))
            (some ((pySplit ':' k0).getD 4 "")) (some res) j "cache",
          store := store,
          trace := [Ev.cacheKeys (cityPat env (pyLower (pyStrip c)) res), Ev.cacheGet k0,
            Ev.viewCityCacheHit] } ∧
    ∀ e ∈ (sunspot_view env store
        { city := some c, latp := none, lonp := none, dateParam := dp }).trace,
      isGeoEv e = false := by
  have hmain := view_city_shortcut_hit env store c dp res k0 v j hc hres hr hhead hget hv
    hj htr hlen hlat hlon
  refine ⟨hmain, ?_⟩
  rw [hmain]
  intro e he
  simp at he
  rcases he with rfl | rfl | rfl <;> rfl

/-- C3 witness: a concrete store answered from the city-pattern probe
without geocoding. -/
theorem C3_witness :
    sunspot_view envW [("sunspot:data:paris:48.85:2.35:2024-01-01", "enc")]
        { city := some "Paris", latp := none, lonp := none, dateParam := some "2024-01-01" }
      = { resp := Resp.ok "Paris" (some "48.85") (some "2.35") (some "2024-01-01")
            jsonA "cache",
          store := [("sunspot:data:paris:48.85:2.35:2024-01-01", "enc")],
          trace := [Ev.cacheKeys "sunspot:data:paris:*:2024-01-01",
            Ev.cacheGet "sunspot:data:paris:48.85:2.35:2024-01-01",
            Ev.viewCityCacheHit] } := by
  have h := (C3_city_pattern_hit envW [("sunspot:data:paris:48.85:2.35:2024-01-01", "enc")]
    "Paris" (some "2024-01-01") "2024-01-01"
    "sunspot:data:paris:48.85:2.35:2024-01-01" "enc" jsonA
    (by decide) (by decide) rfl (by decide) (by decide) (by decide) rfl (by decide)
    (by decide) (by decide) (by decide)).1
  exact h.trans (by rfl)

/-- C3 counterexample: the claim as stated is false — a key matching the
city pattern whose payload decodes successfully (to the empty object,
which is falsy) is not returned as a cache hit: the handler falls
through, contacts the geocoding provider, and answers `source = "api"`. -/
theorem C3_counterexample :
    globMatch "sunspot:data:paris:*:2024-01-01" "sunspot:data:paris:1.0:2.0:2024-01-01"
      = true ∧
    (envW.jsonLoads "encEmpty").isSome = true ∧
    (sunspot_view envW [("sunspot:data:paris:1.0:2.0:2024-01-01", "encEmpty")]
        { city := some "paris", latp := none, lonp := none,
          dateParam := some "2024-01-01" }).resp
      = Resp.ok "Paris" (some "48.85") (some "2.35") (some "2024-01-01") jsonA "api" ∧
    Ev.geoSearch "paris" ∈
      (sunspot_view envW [("sunspot:data:paris:1.0:2.0:2024-01-01", "encEmpty")]
        { city := some "paris", latp := none, lonp := none,
          dateParam := some "2024-01-01" }).trace := by
  exact ⟨by decide, rfl, rfl, by decide⟩


/-- C4 (amended): with the cache holding exactly the canonical key for
`(city="paris", date="2024-01-01")` whose payload decodes to a truthy
value, a second request by that city and a second request by the
coordinates embedded in the key (any textual forms that parse and
re-render to the embedded strings) are both answered with
`source = "cache"` and issue zero calls to the geocoding and sun-times
providers. -/
theorem C4_idempotent_second_request {F : Type} (env : Env F) (la lo v : String) (j : Json)
    (fa fb : F) (lp lnp : String)
    (hpre : env.keyPre = "sunspot:data")
    (hr : env.redisAvailable = true)
    (hres : resolve_date_param env (some "2024-01-01") = some "2024-01-01")
    (hj : env.jsonLoads v = some j) (htr : jsonTruthy j = true) (hv : v ≠ "")
    (hlaN : la ≠ "") (hloN : lo ≠ "") (hlaC : ':' ∉ la.data) (hloC : ':' ∉ lo.data)
    (hlaS : '*' ∉ la.data) (hloS : '*' ∉ lo.data)
    (hlp : lp ≠ "") (hlnp : lnp ≠ "")
    (hfa : env.pyFloat lp = some fa) (hfb : env.pyFloat lnp = some fb)
    (hsa : env.pyStr fa = la) (hsb : env.pyStr fb = lo) :
    (respSource (sunspot_view env [(canonicalKey env "paris" la lo "2024-01-01", v)]
        { city := some "paris", latp := none, lonp := none,
          dateParam := some "2024-01-01" }).resp = some "cache" ∧
      ∀ e ∈ (sunspot_view env [(canonicalKey env "paris" la lo "2024-01-01", v)]
          { city := some "paris", latp := none, lonp := none,
            dateParam := some "2024-01-01" }).trace,
        (isGeoEv e || isSunEv e) = false) ∧
    (respSource (sunspot_view env [(canonicalKey env "paris" la lo "2024-01-01", v)]
        { city := none, latp := some lp, lonp := some lnp,
          dateParam := some "2024-01-01" }).resp = some "cache" ∧
      ∀ e ∈ (sunspot_view env [(canonicalKey env "paris" la lo "2024-01-01", v)]
          { city := none, latp := some lp, lonp := some lnp,
            dateParam := some "2024-01-01" }).trace,
        (isGeoEv e || isSunEv e) = false) := by
  have hsplit := pySplit_canonicalKey env "paris" la lo "2024-01-01" hpre (by decide)
    hlaC hloC (by decide)
  have hlen5 : 5 ≤ (pySplit ':' (canonicalKey env "paris" la lo "2024-01-01")).length := by
    rw [hsplit]
    simp
  have hlat3 : (pySplit ':' (canonicalKey env "paris" la lo "2024-01-01")).getD 3 "" ≠ "" := by
    rw [hsplit]
    exact hlaN
  have hlon4 : (pySplit ':' (canonicalKey env "paris" la lo "2024-01-01")).getD 4 "" ≠ "" := by
    rw [hsplit]
    exact hloN
  constructor
  · have hmatch : globMatch (cityPat env "paris" "2024-01-01")
        (canonicalKey env "paris" la lo "2024-01-01") = true :=
      cityPat_matches_canonical env "paris" la lo "2024-01-01"
        (by rw [hpre]; decide) (by decide) (by decide)
    have hhead : (redisKeys [(canonicalKey env "paris" la lo "2024-01-01", v)]
        (cityPat env (pyLower (pyStrip "paris")) "2024-01-01")).head?
        = some (canonicalKey env "paris" la lo "2024-01-01") := by
      rw [show pyLower (pyStrip "paris") = "paris" by decide,
        redisKeys_singleton _ _ _ hmatch]
      rfl
    have hmain := view_city_shortcut_hit env
      [(canonicalKey env "paris" la lo "2024-01-01", v)] "paris" (some "2024-01-01")
      "2024-01-01" (canonicalKey env "paris" la lo "2024-01-01") v j
      (by decide) hres hr hhead
      (redisGet_singleton (canonicalKey env "paris" la lo "2024-01-01") v) hv hj htr
      hlen5 hlat3 hlon4
    constructor
    · rw [hmain]
      rfl
    · rw [hmain]
      intro e he
      simp at he
      rcases he with rfl | rfl | rfl <;> rfl
  · have hmatch : globMatch (coordPat env la lo "2024-01-01")
        (canonicalKey env "paris" la lo "2024-01-01") = true :=
      coordPat_matches_canonical env "paris" la lo "2024-01-01"
        (by rw [hpre]; decide) hlaS hloS (by decide)
    have hhead : (redisKeys [(canonicalKey env "paris" la lo "2024-01-01", v)]
        (coordPat env (env.pyStr fa) (env.pyStr fb) "2024-01-01")).head?
        = some (canonicalKey env "paris" la lo "2024-01-01") := by
      rw [hsa, hsb, redisKeys_singleton _ _ _ hmatch]
      rfl
    have hcity2 : (pySplit ':' (canonicalKey env "paris" la lo "2024-01-01")).getD 2 ""
        ≠ "" := by
      rw [hsplit]
      show pyLower "paris" ≠ ""
      decide
    have hlen3 : 3 ≤ (pySplit ':' (canonicalKey env "paris" la lo "2024-01-01")).length := by
      rw [hsplit]
      simp
    have hmain := view_coord_shortcut_hit env
      [(canonicalKey env "paris" la lo "2024-01-01", v)] lp lnp (some "2024-01-01") fa fb
      "2024-01-01" (canonicalKey env "paris" la lo "2024-01-01") v j hlp hlnp hfa hfb hres
      hr hhead (redisGet_singleton (canonicalKey env "paris" la lo "2024-01-01") v) hv hj
      htr hlen3 hcity2
    constructor
    · rw [hmain]
      rfl
    · rw [hmain]
      intro e he
      simp at he
      rcases he with rfl | rfl | rfl <;> rfl

/-- C4 witness: the amended theorem at the concrete store holding the
canonical Paris key. -/
theorem C4_witness :
    respSource (sunspot_view envW [("sunspot:data:paris:40.0:2.5:2024-01-01", "enc")]
        { city := some "paris", latp := none, lonp := none,
          dateParam := some "2024-01-01" }).resp = some "cache" ∧
    respSource (sunspot_view envW [("sunspot:data:paris:40.0:2.5:2024-01-01", "enc")]
        { city := none, latp := some "40", lonp := some "2.5",
          dateParam := some "2024-01-01" }).resp = some "cache" := by
  have h := C4_idempotent_second_request envW "40.0" "2.5" "enc" jsonA 400 25 "40" "2.5"
    rfl rfl (by decide) rfl (by decide) (by decide) (by decide) (by decide) (by decide)
    (by decide) (by decide) (by decide) (by decide) (by decide) (by decide) (by decide)
    (by decide) (by decide)
  exact ⟨h.1.1, h.2.1⟩

/-- C4 counterexample: the claim as stated ("a decodable payload") is
false — with the exact canonical key holding a payload that decodes to
the falsy empty object, the second city request is not served from the
cache: the geocoding provider is called and the request ends as a 503,
not `source = "cache"`. -/
theorem C4_counterexample :
    (envW.jsonLoads "encEmpty").isSome = true ∧
    Ev.geoSearch "paris" ∈
      (sunspot_view envW [("sunspot:data:paris:48.85:2.35:2024-01-01", "encEmpty")]
        { city := some "paris", latp := none, lonp := none,
          dateParam := some "2024-01-01" }).trace ∧
    (sunspot_view envW [("sunspot:data:paris:48.85:2.35:2024-01-01", "encEmpty")]
        { city := some "paris", latp := none, lonp := none,
          dateParam := some "2024-01-01" }).resp
      = Resp.err 503 "Could not retrieve sunspot data" := by
  exact ⟨rfl, by decide, rfl⟩


theorem getD_ne_of_truthy (o : Option String) (h : optStrTruthy o = true) : o.getD "" ≠ "" := by
  cases o with
  | none => simp [optStrTruthy] at h
  | some s =>
      simp only [Option.getD_some]
      simpa [optStrTruthy, bne_iff_ne] using h

theorem pyLower_ne_empty (s : String) (h : s ≠ "") : pyLower s ≠ "" := by
  intro hl
  apply h
  apply String.ext
  have hd : (pyLower s).data = [] := by rw [hl]
  simp only [pyLower] at hd
  exact List.map_eq_nil_iff.mp hd

theorem rev_city_ne_empty {F : Type} (env : Env F) (la lo : String) :
    (get_city_from_coordinates env la lo).city ≠ "" := by
  unfold get_city_from_coordinates
  dsimp only
  rcases h : env.reverseResp la lo with _ | addr <;> dsimp only
  · decide
  · split
    · exact getD_ne_of_truthy _ (by assumption)
    · decide

theorem coord_lookup_empty {F : Type} (env : Env F) (la lo d : String)
    (hr : env.redisAvailable = true) :
    get_cached_sunspot_by_coords env [] la lo d
      = { data := none, city := none, trace := [Ev.cacheKeys (coordPat env la lo d)] } := by
  unfold get_cached_sunspot_by_coords
  dsimp only
  rw [hr]
  rfl

theorem get_sunspot_miss_api {F : Type} (env : Env F) (store : Store) (la lo : String)
    (dp cn : Option String) (res : String) (r : Json)
    (hres : resolve_date_param env dp = some res)
    (hr : env.redisAvailable = true)
    (hmiss : redisGet store
      (canonicalKey env (effectiveCity env la lo cn).city la lo res) = none)
    (hapi : env.sunResp la lo res = some { status := some "OK", results := some r })
    (htr : jsonTruthy r = true) :
    get_sunspot env store la lo dp cn
      = { data := some r, dateStr := some res,
          city := some (effectiveCity env la lo cn).city,
          store := redisSet store
            (canonicalKey env (effectiveCity env la lo cn).city la lo res) (env.jsonDumps r),
          trace := Ev.dataRetrieval :: (effectiveCity env la lo cn).trace
            ++ [Ev.cacheGet (canonicalKey env (effectiveCity env la lo cn).city la lo res),
                Ev.sunApi la lo res,
                Ev.cacheSet (canonicalKey env (effectiveCity env la lo cn).city la lo res)
                  (env.jsonDumps r) env.cacheTTL] } := by
  unfold get_sunspot
  dsimp only
  rw [hres]
  dsimp only
  rw [if_pos hr, hmiss]
  dsimp only
  unfold sunApiFetch
  dsimp only
  rw [hapi]
  dsimp only
  simp [htr, hr]

/-- C6: coordinate inputs are normalized by `str(float(...))`.  Two
textual forms that parse to the same floating-point value make the
request handler behave identically (same response, same store effect,
same events — in particular the same canonical cache key); concretely,
after a first request with one form populates the cache at the canonical
key, a second request with the other form is a cache hit. -/
theorem C6_float_normalization {F : Type} (env : Env F) (a b lnp : String)
    (dp : Option String) (f g : F) (res : String) (r : Json)
    (hane : a ≠ "") (hbne : b ≠ "") (hlnp : lnp ≠ "")
    (ha : env.pyFloat a = some f) (hb : env.pyFloat b = some f)
    (hg : env.pyFloat lnp = some g)
    (hpre : env.keyPre = "sunspot:data")
    (hr : env.redisAvailable = true)
    (hres : resolve_date_param env dp = some res)
    (hapi : env.sunResp (env.pyStr f) (env.pyStr g) res
      = some { status := some "OK", results := some r })
    (htr : jsonTruthy r = true)
    (hrt : env.jsonLoads (env.jsonDumps r) = some r)
    (hdne : env.jsonDumps r ≠ "")
    (hlaC : ':' ∉ (env.pyStr f).data) (hloC : ':' ∉ (env.pyStr g).data)
    (hresC : ':' ∉ res.data)
    (hlaS : '*' ∉ (env.pyStr f).data) (hloS : '*' ∉ (env.pyStr g).data)
    (hresS : '*' ∉ res.data)
    (hcnC : ':' ∉ (pyLower
      (get_city_from_coordinates env (env.pyStr f) (env.pyStr g)).city).data) :
    (∀ store : Store,
      sunspot_view env store
          { city := none, latp := some a, lonp := some lnp, dateParam := dp }
        = sunspot_view env store
          { city := none, latp := some b, lonp := some lnp, dateParam := dp }) ∧
    (sunspot_view env []
        { city := none, latp := some a, lonp := some lnp, dateParam := dp }).store
      = [(canonicalKey env (get_city_from_coordinates env (env.pyStr f) (env.pyStr g)).city
            (env.pyStr f) (env.pyStr g) res, env.jsonDumps r)] ∧
    respSource (sunspot_view env
        [(canonicalKey env (get_city_from_coordinates env (env.pyStr f) (env.pyStr g)).city
            (env.pyStr f) (env.pyStr g) res, env.jsonDumps r)]
        { city := none, latp := some b, lonp := some lnp, dateParam := dp }).resp
      = some "cache" := by
  have hcne := rev_city_ne_empty env (env.pyStr f) (env.pyStr g)
  have haT : (a != "") = true := bne_iff_ne.mpr hane
  have hbT : (b != "") = true := bne_iff_ne.mpr hbne
  have hlnpT : (lnp != "") = true := bne_iff_ne.mpr hlnp
  refine ⟨?_, ?_, ?_⟩
  · intro store
    unfold sunspot_view
    dsimp only [optStrTruthy]
    simp only [Bool.false_eq_true, if_false, haT, hbT, hlnpT, Bool.true_and,
      eq_self_iff_true, if_true, Option.getD_some]
    rw [ha, hb]
  · have heff : effectiveCity env (env.pyStr f) (env.pyStr g) none
        = get_city_from_coordinates env (env.pyStr f) (env.pyStr g) := by
      unfold effectiveCity
      rfl
    unfold sunspot_view
    dsimp only [optStrTruthy]
    simp only [Bool.false_eq_true, if_false, haT, hlnpT, Bool.true_and,
      eq_self_iff_true, if_true, Option.getD_some]
    rw [ha]
    dsimp only
    rw [hg]
    dsimp only
    rw [hres]
    dsimp only
    rw [coord_lookup_empty env (env.pyStr f) (env.pyStr g) res hr]
    dsimp only [optJsonTruthy]
    simp only [Bool.false_and, Bool.false_eq_true, if_false]
    rw [get_sunspot_miss_api env [] (env.pyStr f) (env.pyStr g) dp none res r hres hr
      (by rfl) hapi htr]
    dsimp only [optJsonTruthy]
    rw [if_pos htr]
    rw [heff]
    rfl
  · have hcn := pyLower_ne_empty _ hcne
    have hmatch : globMatch
        (coordPat env (env.pyStr f) (env.pyStr g) res)
        (canonicalKey env (get_city_from_coordinates env (env.pyStr f) (env.pyStr g)).city
          (env.pyStr f) (env.pyStr g) res) = true :=
      coordPat_matches_canonical env _ _ _ _ (by rw [hpre]; decide) hlaS hloS hresS
    have hsplit := pySplit_canonicalKey env
      (get_city_from_coordinates env (env.pyStr f) (env.pyStr g)).city
      (env.pyStr f) (env.pyStr g) res hpre hcnC hlaC hloC hresC
    have hmain := view_coord_shortcut_hit env
      [(canonicalKey env (get_city_from_coordinates env (env.pyStr f) (env.pyStr g)).city
          (env.pyStr f) (env.pyStr g) res, env.jsonDumps r)]
      b lnp dp f g res
      (canonicalKey env (get_city_from_coordinates env (env.pyStr f) (env.pyStr g)).city
        (env.pyStr f) (env.pyStr g) res)
      (env.jsonDumps r) r hbne hlnp hb hg hres hr
      (by rw [redisKeys_singleton _ _ _ hmatch]; rfl)
      (redisGet_singleton _ _) hdne hrt htr
      (by rw [hsplit]; simp)
      (by rw [hsplit]; exact hcn)
    rw [hmain]
    rfl


/-- C6 witness: `lat="40"` and `lat="40.0"` behave identically; the
first populates the canonical key and the second hits it. -/
theorem C6_witness :
    (sunspot_view envW []
        { city := none, latp := some "40", lonp := some "2.5",
          dateParam := some "2024-01-01" }).store
      = [("sunspot:data:paris:40.0:2.5:2024-01-01", "enc")] ∧
    respSource (sunspot_view envW [("sunspot:data:paris:40.0:2.5:2024-01-01", "enc")]
        { city := none, latp := some "40.0", lonp := some "2.5",
          dateParam := some "2024-01-01" }).resp = some "cache" ∧
    sunspot_view envW []
        { city := none, latp := some "40", lonp := some "2.5",
          dateParam := some "2024-01-01" }
      = sunspot_view envW []
        { city := none, latp := some "40.0", lonp := some "2.5",
          dateParam := some "2024-01-01" } := by
  have h := C6_float_normalization envW "40" "40.0" "2.5" (some "2024-01-01") 400 25
    "2024-01-01" jsonA (by decide) (by decide) (by decide) (by decide) (by decide)
    (by decide) rfl rfl (by decide) rfl (by decide) rfl (by decide) (by decide)
    (by decide) (by decide) (by decide) (by decide) (by decide) (by decide)
  exact ⟨h.2.1, h.2.2, h.1 []⟩

end Sunspot
